import Mathlib

/-!
# carina: make-swarm adapter and Magnum account

A shallow embedding of `makeswarm/make-swarm.go` and `magnum/account.go`.

Go results `(value, error)` are pairs of options (`none` is Go's `nil`).
Everything outside the two files (the make-swarm client library, the clock,
the logger, the HTTP and OpenStack libraries) is an explicit parameter of the
model: the library answers come from an environment record, and every
interaction with the outside is appended to a trace carried by the world
state. The unbounded `for` loop of `WaitUntilClusterIsActive` takes a fuel
argument and returns `none` when the fuel does not suffice.

`crypto/sha1` is embedded in full, so that `GetID` can be evaluated.
-/

set_option linter.dupNamespace false

namespace Carina

/-! ## Errors (`errors.New`, `fmt.Errorf`, `errors.Wrap`) -/

/-- Go error values: a plain message, or a cause wrapped with a message. -/
inductive Error where
  | new (msg : String)
  | wrap (cause : Error) (msg : String)
  deriving DecidableEq, Repr

/-- The `Error()` method: `errors.Wrap(err, msg)` prints as `msg: cause`. -/
def Error.Error : Error → String
  | .new msg => msg
  | .wrap cause msg => msg ++ ": " ++ cause.Error

/-- A Go result pair `(value, error)`; `none` stands for `nil`. -/
abbrev Ret (α : Type) := Option α × Option Error

/-! ## The make-swarm library types -/

/-- The fields of `libmakeswarm.Cluster` that the adapter reads or writes.
`Nodes` has the library's integer type `Number`; the conversion
`libmakeswarm.Number(nodes)` of `CreateCluster` keeps the value. -/
structure LibCluster where
  ClusterName : String
  Status : String
  Nodes : Int
  AutoScale : Bool
  deriving DecidableEq, Repr

/-- The session handle `*libmakeswarm.ClusterClient`, opaque to the adapter. -/
structure ClusterClient where
  Username : String
  Token : String
  Endpoint : String
  deriving DecidableEq, Repr

/-- Result of `client.GetQuotas()`. -/
structure LibQuotas where
  MaxClusters : Int
  MaxNodesPerCluster : Int
  deriving DecidableEq, Repr

/-- Result of `client.GetCredentials(name)`: file name and content pairs. -/
structure LibCredentials where
  Files : List (String × String)
  deriving DecidableEq, Repr

/-- Value of `libcarina.CredentialsBundle`. -/
structure CredentialsBundle where
  Files : List (String × String)
  deriving DecidableEq, Repr

/-- Value of `CarinaQuotas`, a conversion of the library quotas. -/
structure CarinaQuotas where
  quotas : LibQuotas
  deriving DecidableEq, Repr

/-- Modelled from the spec: the make-swarm `Account` type is declared outside
the files embedded here; the spec gives an account an endpoint, a username,
a secret and a cached token. -/
structure Account where
  Endpoint : String
  UserName : String
  APIKey : String
  Token : String
  deriving DecidableEq, Repr

/-- Modelled from the spec: the adapter's `Cluster` wrapper
(`&Cluster{Cluster: result}`) is declared outside the files embedded here; it
embeds the library cluster. -/
structure Cluster where
  Lib : LibCluster
  deriving DecidableEq, Repr

/-- Modelled from the spec: `GetName` of the wrapper, the cluster's name. -/
def Cluster.GetName (cluster : Cluster) : String := cluster.Lib.ClusterName

/-- Modelled from the spec: `GetStatus` of the wrapper, the cluster's status. -/
def Cluster.GetStatus (cluster : Cluster) : String := cluster.Lib.Status

/-! ## The outside world -/

/-- One interaction with the outside: `Account.Authenticate`, a method of the
library client, or `time.Sleep` (duration in nanoseconds). -/
inductive Call where
  | Authenticate
  | GetQuotas
  | Create (options : LibCluster)
  | GetCredentials (name : String)
  | List
  | Rebuild (name : String)
  | Get (name : String)
  | Delete (name : String)
  | Grow (name : String) (nodes : Int)
  | SetAutoScale (name : String) (value : Bool)
  | Sleep (d : Nat)
  deriving DecidableEq, Repr

/-- A line handed to `common.Log`: the level, the format and its arguments. -/
inductive LogEntry where
  | Debug (format : String) (args : List String)
  | Warning (format : String) (args : List String)
  deriving DecidableEq, Repr

/-- The world state: the trace of outside interactions and the log, both in
the order they happened. -/
structure World where
  trace : List Call
  log : List LogEntry
  deriving DecidableEq, Repr

/-- Record an outside interaction. -/
def World.call (w : World) (c : Call) : World := { w with trace := w.trace ++ [c] }

/-- The method `common.Log.WriteDebug`. -/
def World.WriteDebug (w : World) (format : String) (args : List String) : World :=
  { w with log := w.log ++ [LogEntry.Debug format args] }

/-- The method `common.Log.WriteWarning`. -/
def World.WriteWarning (w : World) (format : String) (args : List String) : World :=
  { w with log := w.log ++ [LogEntry.Warning format args] }

/-- Whether two interactions are calls of the same operation. -/
def Call.sameOp : Call → Call → Bool
  | .Authenticate, .Authenticate => true
  | .GetQuotas, .GetQuotas => true
  | .Create _, .Create _ => true
  | .GetCredentials _, .GetCredentials _ => true
  | .List, .List => true
  | .Rebuild _, .Rebuild _ => true
  | .Get _, .Get _ => true
  | .Delete _, .Delete _ => true
  | .Grow _ _, .Grow _ _ => true
  | .SetAutoScale _ _, .SetAutoScale _ _ => true
  | .Sleep _, .Sleep _ => true
  | _, _ => false

/-- How many calls of the operation of `c` the trace already holds. -/
def World.seq (w : World) (c : Call) : Nat := w.trace.countP c.sameOp

/-- Number of `Account.Authenticate` calls so far. -/
def World.auths (w : World) : Nat := w.seq Call.Authenticate

/-- Number of `client.Get` calls (cluster fetches) so far. -/
def World.fetches (w : World) : Nat := w.seq (Call.Get "")

/-- Number of `time.Sleep` calls so far. -/
def World.sleeps (w : World) : Nat := w.seq (Call.Sleep 0)

/-- The answers of everything the adapter calls but does not define. Each
answer may depend on the receiver, on the arguments and on how many calls of
the same operation came before (`World.seq`), so the record covers every
sequence of responses a backend can give. `ToLower` is `strings.ToLower`. -/
structure Env where
  Authenticate : Nat → Account → Except Error ClusterClient × Account
  GetQuotas : ClusterClient → Nat → Except Error LibQuotas
  Create : ClusterClient → Nat → LibCluster → Except Error LibCluster
  GetCredentials : ClusterClient → Nat → String → Except Error LibCredentials
  List : ClusterClient → Nat → Except Error (List LibCluster)
  Rebuild : ClusterClient → Nat → String → Except Error LibCluster
  Get : ClusterClient → Nat → String → Except Error LibCluster
  Delete : ClusterClient → Nat → String → Except Error LibCluster
  Grow : ClusterClient → Nat → String → Int → Except Error LibCluster
  SetAutoScale : ClusterClient → Nat → String → Bool → Except Error LibCluster
  ToLower : String → String

/-! ## `makeswarm/make-swarm.go` -/

/-- The struct `MakeSwarm`: the memoised session and the account. -/
structure MakeSwarm where
  client : Option ClusterClient
  Account : Account
  deriving DecidableEq, Repr

def StatusNew : String := "new"

def StatusBuilding : String := "building"

def StatusRebuilding : String := "rebuilding-swarm"

/-- Nanoseconds in `time.Second`. -/
def Second : Nat := 1000000000

def clusterPollingInterval : Nat := 10 * Second

/-- The method `init`: authenticate unless a session is already stored. -/
def MakeSwarm.init (env : Env) (carina : MakeSwarm) (w : World) :
    Option Error × MakeSwarm × World :=
  match carina.client with
  | none =>
    let r := env.Authenticate w.auths carina.Account
    let w1 := w.call Call.Authenticate
    match r.1 with
    | .error err => (some err, { carina with Account := r.2 }, w1)
    | .ok carinaClient => (none, { client := some carinaClient, Account := r.2 }, w1)
  | some _ => (none, carina, w)

/-- The method `GetQuotas`. A nil client after a successful `init` cannot
happen; the model returns `(nil, nil)` there, here and in the methods below. -/
def MakeSwarm.GetQuotas (env : Env) (carina : MakeSwarm) (w : World) :
    Ret CarinaQuotas × MakeSwarm × World :=
  match carina.init env w with
  | (some err, carina, w) => ((none, some err), carina, w)
  | (none, carina, w) =>
    let w := w.WriteDebug "[make-swarm] Retrieving account quotas" []
    match carina.client with
    | none => ((none, none), carina, w)
    | some client =>
      match env.GetQuotas client (w.seq Call.GetQuotas) with
      | .error err =>
        ((none, some (Error.wrap err "[make-swarm] Unable to retrieve account quotas")),
          carina, w.call Call.GetQuotas)
      | .ok result => ((some ⟨result⟩, none), carina, w.call Call.GetQuotas)

/-- The method `CreateCluster`. -/
def MakeSwarm.CreateCluster (env : Env) (carina : MakeSwarm) (w : World)
    (name : String) (template : String) (nodes : Int) : Ret Cluster × MakeSwarm × World :=
  match carina.init env w with
  | (some err, carina, w) => ((none, some err), carina, w)
  | (none, carina, w) =>
    let w := if template ≠ "" then
        w.WriteWarning "[make-swarm] Ignoring --template, not supported." []
      else w
    let w := w.WriteDebug "[make-swarm] Creating %d-node cluster (%s)" [toString nodes, name]
    let options : LibCluster :=
      { ClusterName := name, Status := "", Nodes := nodes, AutoScale := false }
    match carina.client with
    | none => ((none, none), carina, w)
    | some client =>
      match env.Create client (w.seq (Call.Create options)) options with
      | .error err =>
        ((none, some (Error.wrap err "[make-swarm] Unable to create the cluster")),
          carina, w.call (Call.Create options))
      | .ok result => ((some ⟨result⟩, none), carina, w.call (Call.Create options))

/-- The method `GetClusterCredentials`. -/
def MakeSwarm.GetClusterCredentials (env : Env) (carina : MakeSwarm) (w : World)
    (name : String) : Ret CredentialsBundle × MakeSwarm × World :=
  match carina.init env w with
  | (some err, carina, w) => ((none, some err), carina, w)
  | (none, carina, w) =>
    let w := w.WriteDebug "[make-swarm] Retrieving cluster credentials (%s)" [name]
    match carina.client with
    | none => ((none, none), carina, w)
    | some client =>
      match env.GetCredentials client (w.seq (Call.GetCredentials name)) name with
      | .error err =>
        ((none, some (Error.wrap err "[make-swarm] Unable to retrieve the cluster credentials")),
          carina, w.call (Call.GetCredentials name))
      | .ok result => ((some ⟨result.Files⟩, none), carina, w.call (Call.GetCredentials name))

/-- The method `ListClusters`. The slice `clusters` starts as nil (`none`) and
grows by one `append` per cluster of the answer, so an empty answer gives a
nil slice. -/
def MakeSwarm.ListClusters (env : Env) (carina : MakeSwarm) (w : World) :
    Ret (List Cluster) × MakeSwarm × World :=
  match carina.init env w with
  | (some err, carina, w) => ((none, some err), carina, w)
  | (none, carina, w) =>
    let w := w.WriteDebug "[make-swarm] Listing clusters" []
    match carina.client with
    | none => ((none, none), carina, w)
    | some client =>
      match env.List client (w.seq Call.List) with
      | .error err =>
        ((none, some (Error.wrap err "[make-swarm] Unable to list clusters")),
          carina, w.call Call.List)
      | .ok results =>
        let clusters : Option (List Cluster) :=
          results.foldl (fun clusters r => some (clusters.getD [] ++ [⟨r⟩])) none
        ((clusters, none), carina, w.call Call.List)

/-- The method `ListClusterTemplates`. -/
def MakeSwarm.ListClusterTemplates (_env : Env) (carina : MakeSwarm) (w : World) :
    Ret (List String) × MakeSwarm × World :=
  ((none, some (Error.new
    "make-swarm does not support templates, use `carina create [cluster-name]` and omit the --template flag")),
    carina, w)

/-- The method `RebuildCluster`. -/
def MakeSwarm.RebuildCluster (env : Env) (carina : MakeSwarm) (w : World)
    (name : String) : Ret Cluster × MakeSwarm × World :=
  match carina.init env w with
  | (some err, carina, w) => ((none, some err), carina, w)
  | (none, carina, w) =>
    let w := w.WriteDebug "[make-swarm] Rebuilding cluster (%s)" [name]
    match carina.client with
    | none => ((none, none), carina, w)
    | some client =>
      match env.Rebuild client (w.seq (Call.Rebuild name)) name with
      | .error err =>
        ((none, some (Error.wrap err "[make-swarm] Unable to rebuild the cluster")),
          carina, w.call (Call.Rebuild name))
      | .ok result => ((some ⟨result⟩, none), carina, w.call (Call.Rebuild name))

/-- The method `GetCluster`. -/
def MakeSwarm.GetCluster (env : Env) (carina : MakeSwarm) (w : World)
    (name : String) : Ret Cluster × MakeSwarm × World :=
  match carina.init env w with
  | (some err, carina, w) => ((none, some err), carina, w)
  | (none, carina, w) =>
    let w := w.WriteDebug "[make-swarm] Retrieving cluster (%s)" [name]
    match carina.client with
    | none => ((none, none), carina, w)
    | some client =>
      match env.Get client (w.seq (Call.Get name)) name with
      | .error err =>
        ((none, some (Error.wrap err
            ("[make-swarm] Unable to retrieve cluster (" ++ name ++ ")"))),
          carina, w.call (Call.Get name))
      | .ok result => ((some ⟨result⟩, none), carina, w.call (Call.Get name))

/-- The method `DeleteCluster`. -/
def MakeSwarm.DeleteCluster (env : Env) (carina : MakeSwarm) (w : World)
    (name : String) : Ret Cluster × MakeSwarm × World :=
  match carina.init env w with
  | (some err, carina, w) => ((none, some err), carina, w)
  | (none, carina, w) =>
    let w := w.WriteDebug "[make-swarm] Deleting cluster (%s)" [name]
    match carina.client with
    | none => ((none, none), carina, w)
    | some client =>
      match env.Delete client (w.seq (Call.Delete name)) name with
      | .error err =>
        ((none, some (Error.wrap err
            ("[make-swarm] Unable to delete cluster (" ++ name ++ ")"))),
          carina, w.call (Call.Delete name))
      | .ok result => ((some ⟨result⟩, none), carina, w.call (Call.Delete name))

/-- The method `GrowCluster`. -/
def MakeSwarm.GrowCluster (env : Env) (carina : MakeSwarm) (w : World)
    (name : String) (nodes : Int) : Ret Cluster × MakeSwarm × World :=
  match carina.init env w with
  | (some err, carina, w) => ((none, some err), carina, w)
  | (none, carina, w) =>
    let w := w.WriteDebug "[make-swarm] Growing cluster (%s) by %d nodes" [name, toString nodes]
    match carina.client with
    | none => ((none, none), carina, w)
    | some client =>
      match env.Grow client (w.seq (Call.Grow name nodes)) name nodes with
      | .error err =>
        ((none, some (Error.wrap err
            ("[make-swarm] Unable to grow cluster (" ++ name ++ ")"))),
          carina, w.call (Call.Grow name nodes))
      | .ok result => ((some ⟨result⟩, none), carina, w.call (Call.Grow name nodes))

/-- The method `ResizeCluster`. -/
def MakeSwarm.ResizeCluster (_env : Env) (carina : MakeSwarm) (w : World)
    (_token : String) (_nodes : Int) : Ret Cluster × MakeSwarm × World :=
  ((none, some (Error.new
    "[make-swarm] Resizing clusters from the carina cli is not supported. Please use 'grow'.")),
    carina, w)

/-- The method `SetAutoScale`. -/
def MakeSwarm.SetAutoScale (env : Env) (carina : MakeSwarm) (w : World)
    (name : String) (value : Bool) : Ret Cluster × MakeSwarm × World :=
  match carina.init env w with
  | (some err, carina, w) => ((none, some err), carina, w)
  | (none, carina, w) =>
    let w := w.WriteDebug
      "[make-swarm] Changing the autoscale setting on the cluster (%s) to %t"
      [name, toString value]
    match carina.client with
    | none => ((none, none), carina, w)
    | some client =>
      match env.SetAutoScale client (w.seq (Call.SetAutoScale name value)) name value with
      | .error err =>
        ((none, some (Error.wrap err
            ("[make-swarm] Unable to change the cluster's autoscale setting (" ++ name ++ ")"))),
          carina, w.call (Call.SetAutoScale name value))
      | .ok result => ((some ⟨result⟩, none), carina, w.call (Call.SetAutoScale name value))

/-- The closure `isDone` of `WaitUntilClusterIsActive`. -/
def isDone (env : Env) (cluster : Cluster) : Bool :=
  let status := env.ToLower cluster.GetStatus
  status != StatusNew && status != StatusBuilding && status != StatusRebuilding

/-- The `for` loop of `WaitUntilClusterIsActive`, `fuel` bounding the number
of iterations; `none` when the loop is still running after `fuel` iterations.
Every iteration fetches by the name of the cluster the method was given. -/
def MakeSwarm.waitLoop (env : Env) (name : String) :
    Nat → MakeSwarm → World → Option (Ret Cluster × MakeSwarm × World)
  | 0, _, _ => none
  | fuel + 1, carina, w =>
    match carina.GetCluster env w name with
    | ((cluster, some err), carina, w) => some ((cluster, some err), carina, w)
    | ((none, none), _, _) => none
    | ((some cluster, none), carina, w) =>
      if isDone env cluster then
        some ((some cluster, none), carina, w)
      else
        let w := w.WriteDebug
          "[make-swarm] Waiting until cluster (%s) is active, currently in %s"
          [cluster.GetName, cluster.GetStatus]
        waitLoop env name fuel carina (w.call (Call.Sleep clusterPollingInterval))

/-- The method `WaitUntilClusterIsActive`. -/
def MakeSwarm.WaitUntilClusterIsActive (env : Env) (fuel : Nat) (carina : MakeSwarm)
    (w : World) (cluster : Cluster) : Option (Ret Cluster × MakeSwarm × World) :=
  if isDone env cluster then
    some ((some cluster, none), carina, w)
  else
    carina.waitLoop env cluster.GetName fuel w

/-- The method `WaitUntilClusterIsDeleted`. -/
def MakeSwarm.WaitUntilClusterIsDeleted (_env : Env) (carina : MakeSwarm) (w : World)
    (_cluster : Cluster) : Option Error × MakeSwarm × World :=
  (none, carina, w)

/-! ## `crypto/sha1` and the `%x` verb of `fmt`

Bytes and 32-bit words are natural numbers, reduced modulo `2 ^ 32` wherever
the Go arithmetic wraps. -/

/-- The bytes of a Go string (its UTF-8 encoding), `[]byte(s)`. -/
def bytesOf (s : String) : List Nat :=
  s.data.flatMap fun c => (String.utf8EncodeChar c).map UInt8.toNat

/-- The big-endian bytes of `x`, `n` of them. -/
def bigEndian (n x : Nat) : List Nat :=
  (List.range n).reverse.map fun i => (x >>> (8 * i)) % 256

/-- The number whose big-endian bytes are `bs`. -/
def wordOf (bs : List Nat) : Nat := bs.foldl (fun acc b => acc * 256 + b) 0

/-- Rotate a 32-bit word left by `n` bits. -/
def rotl (n x : Nat) : Nat := ((x <<< n) ||| (x >>> (32 - n))) % 2 ^ 32

/-- SHA-1 padding: a `0x80` byte, zero bytes up to 56 modulo 64, and the
length of the message in bits as 8 big-endian bytes. -/
def sha1Pad (msg : List Nat) : List Nat :=
  msg ++ [0x80] ++ List.replicate ((119 - msg.length % 64) % 64) 0
    ++ bigEndian 8 (8 * msg.length % 2 ^ 64)

/-- The 80-word message schedule of one 64-byte block. -/
def sha1Schedule (block : List Nat) : List Nat :=
  let w16 := (List.range 16).map fun i => wordOf ((block.drop (4 * i)).take 4)
  (List.range 64).foldl (fun w _ =>
    let t := w.length
    w ++ [rotl 1 (w.getD (t - 3) 0 ^^^ w.getD (t - 8) 0 ^^^ w.getD (t - 14) 0
      ^^^ w.getD (t - 16) 0)]) w16

/-- The five chaining words of SHA-1. -/
structure Digest where
  h0 : Nat
  h1 : Nat
  h2 : Nat
  h3 : Nat
  h4 : Nat
  deriving DecidableEq, Repr

/-- Round `t` of the compression function with schedule word `wt`. -/
def sha1Round (s : Digest) (t wt : Nat) : Digest :=
  let f :=
    if t < 20 then (s.h1 &&& s.h2) ||| ((s.h1 ^^^ 0xFFFFFFFF) &&& s.h3)
    else if t < 40 then s.h1 ^^^ s.h2 ^^^ s.h3
    else if t < 60 then (s.h1 &&& s.h2) ||| (s.h1 &&& s.h3) ||| (s.h2 &&& s.h3)
    else s.h1 ^^^ s.h2 ^^^ s.h3
  let k :=
    if t < 20 then 0x5A827999
    else if t < 40 then 0x6ED9EBA1
    else if t < 60 then 0x8F1BBCDC
    else 0xCA62C1D6
  ⟨(rotl 5 s.h0 + f + s.h4 + k + wt) % 2 ^ 32, s.h0, rotl 30 s.h1, s.h2, s.h3⟩

/-- The compression of one 64-byte block into the chaining value. -/
def sha1Block (h : Digest) (block : List Nat) : Digest :=
  let w := sha1Schedule block
  let s := (List.range 80).foldl (fun s t => sha1Round s t (w.getD t 0)) h
  ⟨(h.h0 + s.h0) % 2 ^ 32, (h.h1 + s.h1) % 2 ^ 32, (h.h2 + s.h2) % 2 ^ 32,
    (h.h3 + s.h3) % 2 ^ 32, (h.h4 + s.h4) % 2 ^ 32⟩

/-- The function `sha1.Sum`: the 20-byte SHA-1 digest of the data. -/
def sha1Sum (data : List Nat) : List Nat :=
  let padded := sha1Pad data
  let h := (List.range (padded.length / 64)).foldl
    (fun h i => sha1Block h ((padded.drop (64 * i)).take 64))
    ⟨0x67452301, 0xEFCDAB89, 0x98BADCFE, 0x10325476, 0xC3D2E1F0⟩
  bigEndian 4 h.h0 ++ bigEndian 4 h.h1 ++ bigEndian 4 h.h2 ++ bigEndian 4 h.h3
    ++ bigEndian 4 h.h4

/-- One lowercase hexadecimal digit. -/
def hexDigit (n : Nat) : Char :=
  if n < 10 then Char.ofNat (48 + n) else Char.ofNat (87 + n)

/-- The `%x` verb applied to a byte slice: two lowercase hexadecimal digits
per byte, no separator. -/
def hex (bs : List Nat) : String :=
  String.mk (bs.flatMap fun b => [hexDigit (b / 16), hexDigit (b % 16)])

/-! ## `magnum/account.go` -/

/-- The struct `MagnumAccount`. -/
structure MagnumAccount where
  AuthEndpoint : String
  Endpoint : String
  UserName : String
  Password : String
  Project : String
  Domain : String
  Region : String
  Token : String
  deriving DecidableEq, Repr

/-- The method `GetID`: `fmt.Sprintf("private-%x-%s", hash[:4], UserName)` with
`hash` the SHA-1 digest of the authentication endpoint. -/
def MagnumAccount.GetID (account : MagnumAccount) : String :=
  let hash := sha1Sum (bytesOf account.AuthEndpoint)
  "private-" ++ hex (hash.take 4) ++ "-" ++ account.UserName

/-- A Go `map[string]string` as a list of key and value pairs. -/
abbrev StringMap := List (String × String)

/-- Indexing a Go map: the value of the key, the empty string when absent. -/
def StringMap.index (c : StringMap) (key : String) : String := (c.lookup key).getD ""

/-- The method `BuildCache`. -/
def MagnumAccount.BuildCache (account : MagnumAccount) : StringMap :=
  [("endpoint", account.Endpoint), ("token", account.Token)]

/-- The method `ApplyCache`. -/
def MagnumAccount.ApplyCache (account : MagnumAccount) (c : StringMap) : MagnumAccount :=
  { account with Endpoint := c.index "endpoint", Token := c.index "token" }

/-- The struct `gophercloud.AuthOptions`, the fields `Authenticate` sets. -/
structure AuthOptions where
  IdentityEndpoint : String
  Username : String
  Password : String
  TenantName : String
  DomainName : String
  TokenID : String
  deriving DecidableEq, Repr

/-- An `http.Request`: method, URL and header lines. -/
structure Request where
  Method : String
  URL : String
  Header : List (String × String)
  deriving DecidableEq, Repr

/-- The method `Header.Set`: replace the values of the key by one value. -/
def Request.Set (req : Request) (key value : String) : Request :=
  { req with Header := req.Header.filter (fun kv => kv.1 != key) ++ [(key, value)] }

/-- The method `Header.Add`: append a value to the key. -/
def Request.Add (req : Request) (key value : String) : Request :=
  { req with Header := req.Header ++ [(key, value)] }

/-- The field of an `http.Response` that `Authenticate` reads. -/
structure Response where
  StatusCode : Nat
  deriving DecidableEq, Repr

/-- The value of `identity.EndpointLocator`: the locator of the library (the
service catalog), or the closure `Authenticate` installs, which ignores its
argument and returns the account's cached `Endpoint`. -/
inductive EndpointLocator where
  | catalog
  | cached (endpoint : String)
  deriving DecidableEq, Repr

/-- The struct `gophercloud.ProviderClient`, the fields `Authenticate` reads
or writes. `ReauthFunc` holds the options the closure built by
`reauthenticate` is bound to; `Timeout` is `HTTPClient.Timeout`. -/
structure ProviderClient where
  IdentityEndpoint : String
  TokenID : String
  ReauthFunc : Option AuthOptions
  UserAgent : List String
  Timeout : Nat
  EndpointLocator : EndpointLocator
  deriving DecidableEq, Repr

/-- The struct `gophercloud.ServiceClient`: the provider client it embeds and
the service endpoint. -/
structure ServiceClient where
  ProviderClient : ProviderClient
  Endpoint : String
  deriving DecidableEq, Repr

/-- The struct `gophercloud.EndpointOpts`, the field `Authenticate` sets. -/
structure EndpointOpts where
  Region : String
  deriving DecidableEq, Repr

/-- One call `Authenticate` makes into the HTTP and OpenStack libraries. -/
inductive AuthCall where
  | NewRequest (method url : String)
  | Do (timeout : Nat) (req : Request)
  | NewClient (endpoint : String)
  | NewContainerOrchestrationV1 (identity : ProviderClient) (eo : EndpointOpts)
  | AuthenticatedClient (options : AuthOptions)
  deriving DecidableEq, Repr

/-- The answers of the HTTP and OpenStack libraries, and the constants of the
repository that `magnum/account.go` uses but does not declare
(`httpTimeout`, `common.UserAgent`, `version.Version`). -/
structure Identity where
  NewRequest : String → String → Except Error Request
  Do : Nat → Request → Except Error Response
  NewClient : String → Except Error ProviderClient
  NewContainerOrchestrationV1 : ProviderClient → EndpointOpts → Except Error ServiceClient
  AuthenticatedClient : AuthOptions → Except Error ProviderClient
  httpTimeout : Nat
  UserAgent : String
  Version : String

/-- What a call of `Authenticate` leaves behind: the returned pair, the
account after the call, the library calls made and the debug lines written. -/
structure AuthOutcome where
  ret : Ret ServiceClient
  account : MagnumAccount
  calls : List AuthCall
  log : List LogEntry
  deriving DecidableEq, Repr

/-- The closure `testAuth` of `Authenticate`: the probe of the cached token.
Returns the error (`none` for a 200 answer) and the library calls made. -/
def testAuth (lib : Identity) (account : MagnumAccount) : Option Error × List AuthCall :=
  let url := account.AuthEndpoint ++ "/auth/tokens"
  match lib.NewRequest "HEAD" url with
  | .error err => (some err, [AuthCall.NewRequest "HEAD" url])
  | .ok req =>
    let req := req.Set "User-Agent" "getcarina/carina dummy request"
    let req := req.Add "X-Auth-Token" account.Token
    let req := req.Add "X-Subject-Token" account.Token
    let calls := [AuthCall.NewRequest "HEAD" url, AuthCall.Do lib.httpTimeout req]
    match lib.Do lib.httpTimeout req with
    | .error err => (some err, calls)
    | .ok resp =>
      if resp.StatusCode ≠ 200 then (some (Error.new "Cached token is invalid"), calls)
      else (none, calls)

/-- The tail of `Authenticate` after the cached-token branch: the full
exchange with `authOptions`, on the account as it is at that point. -/
def MagnumAccount.passwordAuth (lib : Identity) (account : MagnumAccount)
    (authOptions : AuthOptions) (calls : List AuthCall) (log : List LogEntry) : AuthOutcome :=
  let log := log ++ [LogEntry.Debug "[magnum] Attempting to authenticate with a password" []]
  let calls := calls ++ [AuthCall.AuthenticatedClient authOptions]
  match lib.AuthenticatedClient authOptions with
  | .error err => ⟨(none, some (Error.wrap err "[magnum] Authentication failed")), account, calls, log⟩
  | .ok identity =>
    let eo : EndpointOpts := ⟨account.Region⟩
    let calls := calls ++ [AuthCall.NewContainerOrchestrationV1 identity eo]
    match lib.NewContainerOrchestrationV1 identity eo with
    | .error err =>
      ⟨(none, some (Error.wrap err "[magnum] Unable to create a Magnum client")), account, calls, log⟩
    | .ok magnumClient =>
      let log := log ++ [LogEntry.Debug "[magnum] Authentication sucessful" []]
      let account := { account with
        Token := magnumClient.ProviderClient.TokenID, Endpoint := magnumClient.Endpoint }
      let magnumClient := { magnumClient with
        ProviderClient := { magnumClient.ProviderClient with Timeout := lib.httpTimeout } }
      ⟨(some magnumClient, none), account, calls, log⟩

/-- The method `Authenticate` of `MagnumAccount`. -/
def MagnumAccount.Authenticate (lib : Identity) (account : MagnumAccount) : AuthOutcome :=
  let authOptions : AuthOptions :=
    { IdentityEndpoint := account.AuthEndpoint
      Username := account.UserName
      Password := account.Password
      TenantName := account.Project
      DomainName := account.Domain
      TokenID := account.Token }
  if account.Token ≠ "" then
    let log := [LogEntry.Debug
      "[magnum] Attempting to authenticate with a cached token for %s" [account.Endpoint]]
    let probe := testAuth lib account
    match probe.1 with
    | none =>
      let calls := probe.2 ++ [AuthCall.NewClient account.AuthEndpoint]
      match lib.NewClient account.AuthEndpoint with
      | .error err =>
        ⟨(none, some (Error.wrap err "[magnum] Unable to create a new OpenStack Identity client")),
          account, calls, log⟩
      | .ok identity =>
        let identity := { identity with
          TokenID := account.Token
          ReauthFunc := some authOptions
          UserAgent := (lib.UserAgent ++ " " ++ lib.Version) :: identity.UserAgent
          Timeout := 0
          EndpointLocator := EndpointLocator.cached account.Endpoint }
        let eo : EndpointOpts := ⟨account.Region⟩
        let calls := calls ++ [AuthCall.NewContainerOrchestrationV1 identity eo]
        match lib.NewContainerOrchestrationV1 identity eo with
        | .error err =>
          ⟨(none, some (Error.wrap err "[magnum] Unable to create a Magnum client")),
            account, calls, log⟩
        | .ok magnumClient =>
          let log := log ++ [LogEntry.Debug "[magnum] Authentication sucessful" []]
          let account := { account with Token := magnumClient.ProviderClient.TokenID }
          let magnumClient := { magnumClient with
            ProviderClient := { magnumClient.ProviderClient with Timeout := lib.httpTimeout } }
          ⟨(some magnumClient, none), account, calls, log⟩
    | some _ =>
      let log := log ++ [LogEntry.Debug "[magnum] Discarding expired cached token" []]
      let account := { account with Token := "" }
      account.passwordAuth lib authOptions probe.2 log
  else
    account.passwordAuth lib authOptions [] []

/-! ## Concrete environments, for evaluating the model -/

/-- The function `strings.ToLower` on ASCII text (letters `A` to `Z` are
lowered, every other character is kept). -/
def toLowerASCII (s : String) : String := String.mk (s.data.map Char.toLower)

/-- A backend whose successive `Get` answers are the given list (a transport
error once the list is used up), whose `Create` echoes the request with
status `new`, and whose authentication yields a session for the account. -/
def scriptedEnv (gets : List (Except Error LibCluster)) : Env where
  Authenticate := fun _ a => (.ok ⟨a.UserName, a.Token, a.Endpoint⟩, a)
  GetQuotas := fun _ _ => .ok ⟨3, 20⟩
  Create := fun _ _ options => .ok { options with Status := "new" }
  GetCredentials := fun _ _ _ => .ok ⟨[]⟩
  List := fun _ _ => .ok []
  Rebuild := fun _ _ name => .ok ⟨name, "rebuilding-swarm", 1, false⟩
  Get := fun _ i _ => gets.getD i (.error (Error.new "connection refused"))
  Delete := fun _ _ name => .ok ⟨name, "deleted", 1, false⟩
  Grow := fun _ _ name nodes => .ok ⟨name, "growing", nodes, false⟩
  SetAutoScale := fun _ _ name value => .ok ⟨name, "active", 1, value⟩
  ToLower := toLowerASCII

/-- A backend whose authentication always fails. -/
def lockedEnv : Env :=
  { scriptedEnv [] with Authenticate := fun _ a => (.error (Error.new "invalid API key"), a) }

/-- A client that has not authenticated yet. -/
def freshClient : MakeSwarm := ⟨none, ⟨"https://swarm.example", "alice", "key", ""⟩⟩

/-- A client holding a session. -/
def readyClient : MakeSwarm :=
  ⟨some ⟨"alice", "t0", "https://swarm.example"⟩, ⟨"https://swarm.example", "alice", "key", "t0"⟩⟩

/-- The world before anything happened. -/
def World.empty : World := ⟨[], []⟩

/-- An account holding a cached token and a cached endpoint. -/
def staleAccount : MagnumAccount :=
  { AuthEndpoint := "https://keystone.example.com:5000/v3"
    Endpoint := "https://magnum-old.example.com:9511/v1"
    UserName := "alice"
    Password := "secret"
    Project := "demo"
    Domain := "default"
    Region := "RegionOne"
    Token := "stale" }

/-- An identity service reached through the OpenStack library, at a moment
when the token probe fails in transport. The full exchange follows the
library's `AuthOptions`: with a password it is the password exchange, which
does not read `TokenID`; without a password it is the token exchange, which
needs a `TokenID` and no user or domain name, and which the service accepts
for the token `cached`. -/
def tokenExchangeLib : Identity where
  NewRequest := fun method url => .ok ⟨method, url, []⟩
  Do := fun _ _ => .error (Error.new "net/http: request canceled (Client.Timeout exceeded)")
  NewClient := fun endpoint => .ok ⟨endpoint, "", none, [], 0, EndpointLocator.catalog⟩
  NewContainerOrchestrationV1 := fun identity _ =>
    .ok ⟨identity,
      match identity.EndpointLocator with
      | .cached endpoint => endpoint
      | .catalog => "https://magnum.example.com:9511/v1"⟩
  AuthenticatedClient := fun options =>
    if options.Password ≠ "" then
      .ok ⟨options.IdentityEndpoint, "fresh", none, [], 0, EndpointLocator.catalog⟩
    else if options.TokenID = "" then
      .error (Error.new "You must provide a password to authenticate")
    else if options.Username ≠ "" ∨ options.DomainName ≠ "" then
      .error (Error.new "You may not provide a user or domain name with a token")
    else if options.TokenID = "cached" then
      .ok ⟨options.IdentityEndpoint, "issued-for-cached", none, [], 0, EndpointLocator.catalog⟩
    else
      .error (Error.new "Authentication failed")
  httpTimeout := 15 * Second
  UserAgent := "getcarina/carina"
  Version := "dev"

/-- An account that holds a cached token and no password. -/
def tokenOnlyAccount : MagnumAccount :=
  { AuthEndpoint := "https://keystone.example.com:5000/v3"
    Endpoint := "https://magnum-old.example.com:9511/v1"
    UserName := ""
    Password := ""
    Project := ""
    Domain := ""
    Region := "RegionOne"
    Token := "cached" }

/-- A backend whose first authentication fails in transport and whose later
authentications succeed. -/
def flakyEnv : Env :=
  { scriptedEnv [] with
    Authenticate := fun i a =>
      if i = 0 then (.error (Error.new "connection reset"), a)
      else (.ok ⟨a.UserName, a.Token, a.Endpoint⟩, a) }

/-- A backend that is down: every client method fails with the same error. -/
def downEnv : Env where
  Authenticate := fun _ a => (.ok ⟨a.UserName, a.Token, a.Endpoint⟩, a)
  GetQuotas := fun _ _ => .error (Error.new "503 Service Unavailable")
  Create := fun _ _ _ => .error (Error.new "503 Service Unavailable")
  GetCredentials := fun _ _ _ => .error (Error.new "503 Service Unavailable")
  List := fun _ _ => .error (Error.new "503 Service Unavailable")
  Rebuild := fun _ _ _ => .error (Error.new "503 Service Unavailable")
  Get := fun _ _ _ => .error (Error.new "503 Service Unavailable")
  Delete := fun _ _ _ => .error (Error.new "503 Service Unavailable")
  Grow := fun _ _ _ _ => .error (Error.new "503 Service Unavailable")
  SetAutoScale := fun _ _ _ _ => .error (Error.new "503 Service Unavailable")
  ToLower := toLowerASCII

/-! ## Sequences of operations on one client -/

/-- One call of a method of `MakeSwarm` with its arguments;
`WaitUntilClusterIsActive` also carries the fuel of its loop. -/
inductive Op where
  | GetQuotas
  | CreateCluster (name template : String) (nodes : Int)
  | GetClusterCredentials (name : String)
  | ListClusters
  | ListClusterTemplates
  | RebuildCluster (name : String)
  | GetCluster (name : String)
  | DeleteCluster (name : String)
  | GrowCluster (name : String) (nodes : Int)
  | ResizeCluster (token : String) (nodes : Int)
  | SetAutoScale (name : String) (value : Bool)
  | WaitUntilClusterIsActive (fuel : Nat) (cluster : Cluster)
  | WaitUntilClusterIsDeleted (cluster : Cluster)
  deriving DecidableEq, Repr

/-- The client and the world after one operation, whatever it returned;
`none` when `WaitUntilClusterIsActive` does not return within its fuel. -/
def Op.run (env : Env) (carina : MakeSwarm) (w : World) : Op → Option (MakeSwarm × World)
  | .GetQuotas => some (carina.GetQuotas env w).2
  | .CreateCluster name template nodes => some (carina.CreateCluster env w name template nodes).2
  | .GetClusterCredentials name => some (carina.GetClusterCredentials env w name).2
  | .ListClusters => some (carina.ListClusters env w).2
  | .ListClusterTemplates => some (carina.ListClusterTemplates env w).2
  | .RebuildCluster name => some (carina.RebuildCluster env w name).2
  | .GetCluster name => some (carina.GetCluster env w name).2
  | .DeleteCluster name => some (carina.DeleteCluster env w name).2
  | .GrowCluster name nodes => some (carina.GrowCluster env w name nodes).2
  | .ResizeCluster token nodes => some (carina.ResizeCluster env w token nodes).2
  | .SetAutoScale name value => some (carina.SetAutoScale env w name value).2
  | .WaitUntilClusterIsActive fuel cluster =>
    (carina.WaitUntilClusterIsActive env fuel w cluster).map fun r => r.2
  | .WaitUntilClusterIsDeleted cluster => some (carina.WaitUntilClusterIsDeleted env w cluster).2

/-- A sequence of operations on one `MakeSwarm` value, each starting from the
client and the world the one before left. -/
def runOps (env : Env) : List Op → MakeSwarm → World → Option (MakeSwarm × World)
  | [], carina, w => some (carina, w)
  | op :: ops, carina, w =>
    match op.run env carina w with
    | none => none
    | some (carina1, w1) => runOps env ops carina1 w1

/-- What C12 asks of one operation, given the answer of its backend call, the
pair it returns and the words that name the operation: on a backend error `e`
the result is nil and the error reads `[make-swarm] `, the words, `: `, the
message of `e`; and a nil error comes only with a backend answer that is not
an error. -/
def WrapsBackendError {α β : Type} (answer : Except Error β) (ret : Ret α)
    (context : String) : Prop :=
  (∀ e, answer = .error e →
    ret.1 = none ∧
      ∃ err, ret.2 = some err ∧ err.Error = "[make-swarm] " ++ context ++ ": " ++ e.Error) ∧
  (ret.2 = none → ∃ r, answer = .ok r)

/-! ## Trace shapes used in the statements -/


/-- The calls of `n` polling rounds that found the cluster still in progress:
a fetch, then a sleep of the polling interval, `n` times. -/
def busyTrace (name : String) : Nat → List Call
  | 0 => []
  | n + 1 => Call.Get name :: Call.Sleep clusterPollingInterval :: busyTrace name n

/-! ## Properties of the make-swarm adapter -/

theorem sameOp_get (a b : String) : Call.sameOp (Call.Get a) = Call.sameOp (Call.Get b) := by
  funext c; cases c <;> rfl

theorem seq_get (w : World) (name : String) : w.seq (Call.Get name) = w.fetches := by
  unfold World.fetches World.seq
  rw [sameOp_get name ""]

theorem seq_writeDebug (w : World) (f : String) (a : List String) (c : Call) :
    (w.WriteDebug f a).seq c = w.seq c := rfl

theorem fetches_writeDebug (w : World) (f : String) (a : List String) :
    (w.WriteDebug f a).fetches = w.fetches := rfl

theorem seq_call (w : World) (c d : Call) :
    (w.call c).seq d = w.seq d + (if d.sameOp c then 1 else 0) := by
  unfold World.seq World.call
  simp [List.countP_append, List.countP_cons]

theorem init_ready (env : Env) (carina : MakeSwarm) (w : World) (cl : ClusterClient)
    (h : carina.client = some cl) : carina.init env w = (none, carina, w) := by
  unfold MakeSwarm.init
  rw [h]

theorem GetCluster_ready (env : Env) (carina : MakeSwarm) (w : World) (cl : ClusterClient)
    (name : String) (h : carina.client = some cl) :
    carina.GetCluster env w name =
      match env.Get cl w.fetches name with
      | .error err =>
        ((none, some (Error.wrap err ("[make-swarm] Unable to retrieve cluster (" ++ name ++ ")"))),
          carina, (w.WriteDebug "[make-swarm] Retrieving cluster (%s)" [name]).call (Call.Get name))
      | .ok result => ((some ⟨result⟩, none), carina,
          (w.WriteDebug "[make-swarm] Retrieving cluster (%s)" [name]).call (Call.Get name)) := by
  unfold MakeSwarm.GetCluster
  rw [init_ready env carina w cl h]
  simp only [h, seq_get, fetches_writeDebug]

theorem fetches_call_get (w : World) (name : String) :
    (w.call (Call.Get name)).fetches = w.fetches + 1 := by
  unfold World.fetches
  rw [seq_call]; rfl

theorem fetches_call_sleep (w : World) (d : Nat) :
    (w.call (Call.Sleep d)).fetches = w.fetches := by
  unfold World.fetches
  rw [seq_call]; rfl

theorem waitLoop_busy (env : Env) (name : String) (carina : MakeSwarm) (cl : ClusterClient)
    (hcl : carina.client = some cl) :
    ∀ (n fuel : Nat) (w : World),
      (∀ i, i < n → ∃ r, env.Get cl (w.fetches + i) name = .ok r ∧ isDone env ⟨r⟩ = false) →
      ∃ w1 : World, w1.trace = w.trace ++ busyTrace name n ∧
        carina.waitLoop env name (n + fuel) w = carina.waitLoop env name fuel w1 := by
  intro n
  induction n with
  | zero =>
    intro fuel w _
    exact ⟨w, by simp [busyTrace], by rw [Nat.zero_add]⟩
  | succ n ih =>
    intro fuel w h
    obtain ⟨r, hr, hbusy⟩ := h 0 (Nat.succ_pos n)
    rw [Nat.add_zero] at hr
    let w2 : World := (((w.WriteDebug "[make-swarm] Retrieving cluster (%s)" [name]).call
      (Call.Get name)).WriteDebug
        "[make-swarm] Waiting until cluster (%s) is active, currently in %s"
        [Cluster.GetName ⟨r⟩, Cluster.GetStatus ⟨r⟩]).call (Call.Sleep clusterPollingInterval)
    have hf : w2.fetches = w.fetches + 1 := by
      simp only [w2, fetches_call_sleep, fetches_writeDebug, fetches_call_get]
    have hnext : ∀ i, i < n →
        ∃ r, env.Get cl (w2.fetches + i) name = .ok r ∧ isDone env ⟨r⟩ = false := by
      intro i hi
      have := h (i + 1) (Nat.succ_lt_succ hi)
      rw [hf]
      rwa [Nat.add_assoc, Nat.add_comm 1 i]
    obtain ⟨w1, htrace, hloop⟩ := ih fuel w2 hnext
    refine ⟨w1, ?_, ?_⟩
    · rw [htrace]
      simp [w2, busyTrace, World.call, World.WriteDebug]
    · rw [← hloop, Nat.add_right_comm]
      conv_lhs => unfold MakeSwarm.waitLoop
      rw [GetCluster_ready env carina w cl name hcl, hr]
      simp only [hbusy]
      rfl

theorem pollTrace_intersperse (name : String) (n : Nat) :
    busyTrace name n ++ [Call.Get name] =
      (List.replicate (n + 1) (Call.Get name)).intersperse (Call.Sleep clusterPollingInterval) := by
  induction n with
  | zero => simp [busyTrace]
  | succ n ih =>
    rw [List.replicate_succ, List.replicate_succ] at *
    simp only [busyTrace, List.cons_append, ih, List.intersperse]

theorem seq_of_trace (w1 w2 : World) (t : List Call) (c : Call)
    (h : w2.trace = w1.trace ++ t) : w2.seq c = w1.seq c + t.countP c.sameOp := by
  unfold World.seq
  rw [h, List.countP_append]

theorem countP_get_busyTrace (name : String) (n : Nat) :
    (busyTrace name n).countP (Call.sameOp (Call.Get "")) = n := by
  induction n with
  | zero => rfl
  | succ n ih => simp [busyTrace, List.countP_cons, ih, Call.sameOp]

theorem countP_sleep_busyTrace (name : String) (n : Nat) :
    (busyTrace name n).countP (Call.sameOp (Call.Sleep 0)) = n := by
  induction n with
  | zero => rfl
  | succ n ih => simp [busyTrace, List.countP_cons, ih, Call.sameOp]

theorem countP_auth_busyTrace (name : String) (n : Nat) :
    (busyTrace name n).countP (Call.sameOp Call.Authenticate) = 0 := by
  induction n with
  | zero => rfl
  | succ n ih => simp [busyTrace, List.countP_cons, ih, Call.sameOp]

theorem init_ok (env : Env) (carina carina1 : MakeSwarm) (w w1 : World)
    (h : carina.init env w = (none, carina1, w1)) :
    (∃ cl, carina1.client = some cl) ∧ w1.fetches = w.fetches ∧ w1.sleeps = w.sleeps := by
  unfold MakeSwarm.init at h
  cases hc : carina.client with
  | some cl =>
    rw [hc] at h
    simp only [Prod.mk.injEq, true_and] at h
    obtain ⟨h1, h2⟩ := h
    subst h1 h2
    exact ⟨⟨cl, hc⟩, rfl, rfl⟩
  | none =>
    rw [hc] at h
    cases ha : (env.Authenticate w.auths carina.Account).1 with
    | error err => simp [ha] at h
    | ok carinaClient =>
      simp only [ha, Prod.mk.injEq, true_and] at h
      obtain ⟨h1, h2⟩ := h
      subst h1 h2
      refine ⟨⟨carinaClient, rfl⟩, ?_, ?_⟩
      · unfold World.fetches; rw [seq_call]; rfl
      · unfold World.sleeps; rw [seq_call]; rfl

theorem GetCluster_init (env : Env) (carina carina1 : MakeSwarm) (w w1 : World) (name : String)
    (h : carina.init env w = (none, carina1, w1)) :
    carina.GetCluster env w name = carina1.GetCluster env w1 name := by
  obtain ⟨⟨cl, hcl⟩, -, -⟩ := init_ok env carina carina1 w w1 h
  conv_lhs => unfold MakeSwarm.GetCluster
  conv_rhs => unfold MakeSwarm.GetCluster
  rw [h, init_ready env carina1 w1 cl hcl]

theorem waitLoop_init (env : Env) (carina carina1 : MakeSwarm) (w w1 : World) (name : String)
    (fuel : Nat) (h : carina.init env w = (none, carina1, w1)) :
    carina.waitLoop env name fuel w = carina1.waitLoop env name fuel w1 := by
  cases fuel with
  | zero => rfl
  | succ fuel =>
    conv_lhs => unfold MakeSwarm.waitLoop
    conv_rhs => unfold MakeSwarm.waitLoop
    rw [GetCluster_init env carina carina1 w w1 name h]

theorem waitLoop_done (env : Env) (name : String) (carina : MakeSwarm) (cl : ClusterClient)
    (w : World) (fuel : Nat) (last : LibCluster) (hcl : carina.client = some cl)
    (hlast : env.Get cl w.fetches name = .ok last) (hdone : isDone env ⟨last⟩ = true) :
    carina.waitLoop env name (fuel + 1) w = some ((some ⟨last⟩, none), carina,
      (w.WriteDebug "[make-swarm] Retrieving cluster (%s)" [name]).call (Call.Get name)) := by
  unfold MakeSwarm.waitLoop
  rw [GetCluster_ready env carina w cl name hcl, hlast]
  simp only [hdone]
  rfl

theorem waitLoop_failed (env : Env) (name : String) (carina : MakeSwarm) (cl : ClusterClient)
    (w : World) (fuel : Nat) (e : Error) (hcl : carina.client = some cl)
    (hlast : env.Get cl w.fetches name = .error e) :
    carina.waitLoop env name (fuel + 1) w = some ((none, some (Error.wrap e
        ("[make-swarm] Unable to retrieve cluster (" ++ name ++ ")"))), carina,
      (w.WriteDebug "[make-swarm] Retrieving cluster (%s)" [name]).call (Call.Get name)) := by
  unfold MakeSwarm.waitLoop
  rw [GetCluster_ready env carina w cl name hcl, hlast]

theorem isDone_iff (env : Env) (cluster : Cluster) :
    isDone env cluster = true ↔
      env.ToLower cluster.GetStatus ≠ "new" ∧ env.ToLower cluster.GetStatus ≠ "building" ∧
        env.ToLower cluster.GetStatus ≠ "rebuilding-swarm" := by
  simp [isDone, StatusNew, StatusBuilding, StatusRebuilding, and_assoc]

theorem waitLoop_result_done (env : Env) (name : String) :
    ∀ (fuel : Nat) (carina carina1 : MakeSwarm) (w w1 : World) (ret : Option Cluster),
      carina.waitLoop env name fuel w = some ((ret, none), carina1, w1) →
      ∃ c, ret = some c ∧ isDone env c = true := by
  intro fuel
  induction fuel with
  | zero => intro carina carina1 w w1 ret h; simp [MakeSwarm.waitLoop] at h
  | succ fuel ih =>
    intro carina carina1 w w1 ret h
    unfold MakeSwarm.waitLoop at h
    split at h
    · simp at h
    · simp at h
    · rename_i cluster carina2 w2 _
      by_cases hd : isDone env cluster = true
      · simp only [hd, if_true, Option.some.injEq, Prod.mk.injEq] at h
        exact ⟨cluster, h.1.1.symm, hd⟩
      · simp only [hd] at h
        exact ih _ _ _ _ _ h

theorem waitLoop_polls (env : Env) (name : String) (carina : MakeSwarm) (cl : ClusterClient)
    (w : World) (n fuel : Nat) (hcl : carina.client = some cl)
    (hbusy : ∀ i, i < n →
      ∃ r, env.Get cl (w.fetches + i) name = .ok r ∧ isDone env ⟨r⟩ = false) :
    ∃ w1 : World, w1.trace = w.trace ++ busyTrace name n ∧ w1.fetches = w.fetches + n ∧
      w1.sleeps = w.sleeps + n ∧
      carina.waitLoop env name (n + fuel) w = carina.waitLoop env name fuel w1 := by
  obtain ⟨w1, htrace, hloop⟩ := waitLoop_busy env name carina cl hcl n fuel w hbusy
  refine ⟨w1, htrace, ?_, ?_, hloop⟩
  · unfold World.fetches
    rw [seq_of_trace w w1 _ _ htrace, countP_get_busyTrace]
  · unfold World.sleeps
    rw [seq_of_trace w w1 _ _ htrace, countP_sleep_busyTrace]

/-! ### C1: a cluster that is already done is returned at once -/

/-- C1, as stated, fails on the code: a cluster whose status is
`rebuilding-swarm`, a status outside {new, building, rebuilding}, is not
returned at once; the loop fetches it (here once) and returns what the backend
answered. -/
theorem waitUntil_rebuilding_swarm_is_polled :
    Cluster.GetStatus ⟨⟨"c", "rebuilding-swarm", 1, false⟩⟩ ∉ ["new", "building", "rebuilding"] ∧
    readyClient.WaitUntilClusterIsActive (scriptedEnv [.ok ⟨"c", "active", 1, false⟩]) 1
        World.empty ⟨⟨"c", "rebuilding-swarm", 1, false⟩⟩ =
      some ((some ⟨⟨"c", "active", 1, false⟩⟩, none), readyClient,
        ⟨[Call.Get "c"], [LogEntry.Debug "[make-swarm] Retrieving cluster (%s)" ["c"]]⟩) := by
  decide

/-- C1, amended: for every client state, world and fuel, a cluster whose
lower-cased status is none of `new`, `building`, `rebuilding-swarm` is
returned as it is with a nil error, and the client state and the world are
unchanged: no fetch, no authentication, no sleep. -/
theorem waitUntil_done_returns_at_once (env : Env) (fuel : Nat) (carina : MakeSwarm)
    (w : World) (cluster : Cluster)
    (hnew : env.ToLower cluster.GetStatus ≠ "new")
    (hbuilding : env.ToLower cluster.GetStatus ≠ "building")
    (hrebuilding : env.ToLower cluster.GetStatus ≠ "rebuilding-swarm") :
    carina.WaitUntilClusterIsActive env fuel w cluster = some ((some cluster, none), carina, w) := by
  unfold MakeSwarm.WaitUntilClusterIsActive
  rw [if_pos ((isDone_iff env cluster).2 ⟨hnew, hbuilding, hrebuilding⟩)]

/-- Witness of C1 amended: an unauthenticated client given an `active`
cluster, with no fuel at all. -/
theorem waitUntil_done_returns_at_once_witness :
    freshClient.WaitUntilClusterIsActive (scriptedEnv []) 0 World.empty
        ⟨⟨"c", "active", 3, false⟩⟩ =
      some ((some ⟨⟨"c", "active", 3, false⟩⟩, none), freshClient, World.empty) :=
  waitUntil_done_returns_at_once (scriptedEnv []) 0 freshClient World.empty
    ⟨⟨"c", "active", 3, false⟩⟩ (by decide) (by decide) (by decide)

/-! ### C2: a result with a nil error is a done cluster -/

/-- C2, as stated, fails on the code: a cluster with status `rebuilding` is
returned with a nil error, and `rebuilding` is in {new, building, rebuilding}. -/
theorem waitUntil_returns_rebuilding :
    freshClient.WaitUntilClusterIsActive (scriptedEnv []) 0 World.empty
        ⟨⟨"c", "rebuilding", 1, false⟩⟩ =
      some ((some ⟨⟨"c", "rebuilding", 1, false⟩⟩, none), freshClient, World.empty) ∧
    Cluster.GetStatus ⟨⟨"c", "rebuilding", 1, false⟩⟩ ∈ ["new", "building", "rebuilding"] := by
  decide

/-- C2, amended: whenever `WaitUntilClusterIsActive` returns with a nil error,
for any input cluster, client state, world, fuel and backend, it returns a
cluster, and the lower-cased status of that cluster is none of `new`,
`building`, `rebuilding-swarm`. -/
theorem waitUntil_result_is_done (env : Env) (fuel : Nat) (carina carina1 : MakeSwarm)
    (w w1 : World) (cluster : Cluster) (ret : Option Cluster)
    (h : carina.WaitUntilClusterIsActive env fuel w cluster = some ((ret, none), carina1, w1)) :
    ∃ c, ret = some c ∧ env.ToLower c.GetStatus ≠ "new" ∧
      env.ToLower c.GetStatus ≠ "building" ∧ env.ToLower c.GetStatus ≠ "rebuilding-swarm" := by
  unfold MakeSwarm.WaitUntilClusterIsActive at h
  by_cases hd : isDone env cluster = true
  · rw [if_pos hd] at h
    simp only [Option.some.injEq, Prod.mk.injEq] at h
    exact ⟨cluster, h.1.1.symm, (isDone_iff env cluster).1 hd⟩
  · rw [if_neg hd] at h
    obtain ⟨c, hc, hdone⟩ := waitLoop_result_done env _ fuel carina carina1 w w1 ret h
    exact ⟨c, hc, (isDone_iff env c).1 hdone⟩

/-- Witness of C2 amended: a `building` cluster that the backend reports as
`building` and then as `active`. -/
theorem waitUntil_result_is_done_witness :
    ∃ c, some (⟨⟨"c", "active", 1, false⟩⟩ : Cluster) = some c ∧
      toLowerASCII c.GetStatus ≠ "new" ∧ toLowerASCII c.GetStatus ≠ "building" ∧
      toLowerASCII c.GetStatus ≠ "rebuilding-swarm" :=
  waitUntil_result_is_done
    (scriptedEnv [.ok ⟨"c", "building", 1, false⟩, .ok ⟨"c", "active", 1, false⟩]) 2
    readyClient readyClient World.empty
    ⟨[Call.Get "c", Call.Sleep 10000000000, Call.Get "c"],
      [LogEntry.Debug "[make-swarm] Retrieving cluster (%s)" ["c"],
       LogEntry.Debug "[make-swarm] Waiting until cluster (%s) is active, currently in %s"
         ["c", "building"],
       LogEntry.Debug "[make-swarm] Retrieving cluster (%s)" ["c"]]⟩
    ⟨⟨"c", "building", 1, false⟩⟩ (some ⟨⟨"c", "active", 1, false⟩⟩) (by decide)

theorem sleeps_call_get (w : World) (name : String) :
    (w.call (Call.Get name)).sleeps = w.sleeps := by
  unfold World.sleeps
  rw [seq_call]; rfl

theorem sleeps_writeDebug (w : World) (f : String) (a : List String) :
    (w.WriteDebug f a).sleeps = w.sleeps := rfl

theorem trace_after_fetch (w w1 : World) (name : String) (n : Nat)
    (h : w.trace = w1.trace ++ busyTrace name n) :
    ((w.WriteDebug "[make-swarm] Retrieving cluster (%s)" [name]).call (Call.Get name)).trace =
      w1.trace ++ (List.replicate (n + 1) (Call.Get name)).intersperse
        (Call.Sleep clusterPollingInterval) := by
  rw [← pollTrace_intersperse, ← List.append_assoc, ← h]
  rfl

/-! ### C3: how often the loop fetches and sleeps -/

/-- C3, as stated, fails on the code: with input status `building` and the
responses `building`, `active` the loop fetches twice but sleeps once, not
twice: the first fetch is not preceded by a sleep. -/
theorem waitUntil_two_fetches_one_sleep :
    (readyClient.WaitUntilClusterIsActive
        (scriptedEnv [.ok ⟨"c", "building", 1, false⟩, .ok ⟨"c", "active", 1, false⟩]) 2
        World.empty ⟨⟨"c", "building", 1, false⟩⟩).map
      (fun r => (r.1, r.2.2.trace, r.2.2.fetches, r.2.2.sleeps)) =
    some ((some ⟨⟨"c", "active", 1, false⟩⟩, none),
      [Call.Get "c", Call.Sleep 10000000000, Call.Get "c"], 2, 1) := by
  decide

/-- C3, amended: let the input cluster be in progress (`isDone` false), let
`init` succeed (a stored session, or a successful authentication), and let the
next `k` answers of the backend for the cluster's name be `k - 1` clusters in
progress followed by a done cluster, `k ≥ 1`. Then, given fuel for `k`
iterations, `WaitUntilClusterIsActive` returns that done cluster with a nil
error; after `init` it makes exactly `k` fetches with one sleep of the
polling interval between two consecutive fetches, so `k - 1` sleeps, none
before the first fetch and none after the last. -/
theorem waitUntil_polls_until_done (env : Env) (fuel k : Nat) (carina carina1 : MakeSwarm)
    (w w1 : World) (cl : ClusterClient) (cluster : Cluster) (last : LibCluster)
    (hc : isDone env cluster = false)
    (hinit : carina.init env w = (none, carina1, w1))
    (hcl : carina1.client = some cl)
    (hk : 1 ≤ k) (hfuel : k ≤ fuel)
    (hbusy : ∀ i, i + 1 < k →
      ∃ r, env.Get cl (w.fetches + i) cluster.GetName = .ok r ∧ isDone env ⟨r⟩ = false)
    (hlast : env.Get cl (w.fetches + (k - 1)) cluster.GetName = .ok last)
    (hdone : isDone env ⟨last⟩ = true) :
    ∃ w2 : World,
      carina.WaitUntilClusterIsActive env fuel w cluster =
        some ((some ⟨last⟩, none), carina1, w2) ∧
      w2.trace = w1.trace ++ (List.replicate k (Call.Get cluster.GetName)).intersperse
        (Call.Sleep clusterPollingInterval) ∧
      w2.fetches = w.fetches + k ∧ w2.sleeps = w.sleeps + (k - 1) := by
  obtain ⟨n, rfl⟩ : ∃ n, k = n + 1 := ⟨k - 1, by omega⟩
  obtain ⟨m, rfl⟩ : ∃ m, fuel = n + (m + 1) := ⟨fuel - n - 1, by omega⟩
  obtain ⟨-, hf1, hs1⟩ := init_ok env carina carina1 w w1 hinit
  have hbusy1 : ∀ i, i < n →
      ∃ r, env.Get cl (w1.fetches + i) cluster.GetName = .ok r ∧ isDone env ⟨r⟩ = false := by
    intro i hi
    rw [hf1]
    exact hbusy i (by omega)
  obtain ⟨w2, htrace, hf, hs, hloop⟩ :=
    waitLoop_polls env cluster.GetName carina1 cl w1 n (m + 1) hcl hbusy1
  have hlast2 : env.Get cl w2.fetches cluster.GetName = .ok last := by
    rw [hf, hf1]; simpa using hlast
  refine ⟨_, ?_, trace_after_fetch w2 w1 cluster.GetName n htrace, ?_, ?_⟩
  · unfold MakeSwarm.WaitUntilClusterIsActive
    rw [if_neg (by simp [hc]), waitLoop_init env carina carina1 w w1 _ _ hinit, hloop,
      waitLoop_done env _ carina1 cl w2 m last hcl hlast2 hdone]
  · rw [fetches_call_get, fetches_writeDebug, hf, hf1, Nat.add_assoc]
  · rw [sleeps_call_get, sleeps_writeDebug, hs, hs1, Nat.add_sub_cancel]

/-- Witness of C3 amended: input `building`, answers `building` then `active`,
so `k = 2`: two fetches, one sleep. -/
theorem waitUntil_polls_until_done_witness :
    ∃ w2 : World,
      readyClient.WaitUntilClusterIsActive
          (scriptedEnv [.ok ⟨"c", "building", 1, false⟩, .ok ⟨"c", "active", 1, false⟩]) 2
          World.empty ⟨⟨"c", "building", 1, false⟩⟩ =
        some ((some ⟨⟨"c", "active", 1, false⟩⟩, none), readyClient, w2) ∧
      w2.trace = World.empty.trace ++
        (List.replicate 2 (Call.Get (Cluster.GetName ⟨⟨"c", "building", 1, false⟩⟩))).intersperse
          (Call.Sleep clusterPollingInterval) ∧
      w2.fetches = World.empty.fetches + 2 ∧ w2.sleeps = World.empty.sleeps + (2 - 1) :=
  waitUntil_polls_until_done
    (scriptedEnv [.ok ⟨"c", "building", 1, false⟩, .ok ⟨"c", "active", 1, false⟩]) 2 2
    readyClient readyClient World.empty World.empty ⟨"alice", "t0", "https://swarm.example"⟩
    ⟨⟨"c", "building", 1, false⟩⟩ ⟨"c", "active", 1, false⟩
    (by decide) (by decide) (by decide) (by decide) (by decide)
    (fun i hi => by
      have hi0 : i = 0 := by omega
      subst hi0
      exact ⟨⟨"c", "building", 1, false⟩, rfl, by decide⟩)
    rfl (by decide)

theorem waitLoop_auth_failed (env : Env) (name : String) (carina : MakeSwarm) (w : World)
    (fuel : Nat) (err : Error) (acct : Account) (hnil : carina.client = none)
    (hauth : env.Authenticate w.auths carina.Account = (.error err, acct)) :
    carina.waitLoop env name (fuel + 1) w =
      some ((none, some err), { carina with Account := acct }, w.call Call.Authenticate) := by
  unfold MakeSwarm.waitLoop MakeSwarm.GetCluster MakeSwarm.init
  simp only [hnil, hauth]

/-! ### C4: a failed fetch ends the loop -/

/-- C4: let the input cluster be in progress (`isDone` false), so that the
loop is entered, and let there be fuel for the iterations below.
First part: when the first `GetCluster` fails because authentication fails
with `err`, `WaitUntilClusterIsActive` returns a nil cluster and `err`, and the
only outside interaction is that authentication: no fetch, no sleep.
Second part: when `init` succeeds, the backend answers `k - 1` times with a
cluster in progress and its `k`-th answer is the error `e`, then
`WaitUntilClusterIsActive` returns a nil cluster and the error of that
`GetCluster` (`e` wrapped with the message naming the cluster), and the trace
ends with the failed fetch: `k` fetches, `k - 1` sleeps, nothing after. -/
theorem waitUntil_stops_at_failed_fetch (env : Env) (fuel : Nat) (carina : MakeSwarm)
    (w : World) (cluster : Cluster) (hc : isDone env cluster = false) (hfuel : 1 ≤ fuel) :
    (∀ (err : Error) (acct : Account), carina.client = none →
      env.Authenticate w.auths carina.Account = (.error err, acct) →
      carina.WaitUntilClusterIsActive env fuel w cluster =
        some ((none, some err), { carina with Account := acct }, w.call Call.Authenticate)) ∧
    (∀ (k : Nat) (carina1 : MakeSwarm) (w1 : World) (cl : ClusterClient) (e : Error),
      carina.init env w = (none, carina1, w1) → carina1.client = some cl →
      1 ≤ k → k ≤ fuel →
      (∀ i, i + 1 < k →
        ∃ r, env.Get cl (w.fetches + i) cluster.GetName = .ok r ∧ isDone env ⟨r⟩ = false) →
      env.Get cl (w.fetches + (k - 1)) cluster.GetName = .error e →
      ∃ w2 : World,
        carina.WaitUntilClusterIsActive env fuel w cluster =
          some ((none, some (Error.wrap e
            ("[make-swarm] Unable to retrieve cluster (" ++ cluster.GetName ++ ")"))),
            carina1, w2) ∧
        w2.trace = w1.trace ++ (List.replicate k (Call.Get cluster.GetName)).intersperse
          (Call.Sleep clusterPollingInterval) ∧
        w2.fetches = w.fetches + k ∧ w2.sleeps = w.sleeps + (k - 1)) := by
  constructor
  · intro err acct hnil hauth
    obtain ⟨m, rfl⟩ : ∃ m, fuel = m + 1 := ⟨fuel - 1, by omega⟩
    unfold MakeSwarm.WaitUntilClusterIsActive
    rw [if_neg (by simp [hc]), waitLoop_auth_failed env _ carina w m err acct hnil hauth]
  · intro k carina1 w1 cl e hinit hcl hk hkfuel hbusy hlast
    obtain ⟨n, rfl⟩ : ∃ n, k = n + 1 := ⟨k - 1, by omega⟩
    obtain ⟨m, rfl⟩ : ∃ m, fuel = n + (m + 1) := ⟨fuel - n - 1, by omega⟩
    obtain ⟨-, hf1, hs1⟩ := init_ok env carina carina1 w w1 hinit
    have hbusy1 : ∀ i, i < n →
        ∃ r, env.Get cl (w1.fetches + i) cluster.GetName = .ok r ∧ isDone env ⟨r⟩ = false := by
      intro i hi
      rw [hf1]
      exact hbusy i (by omega)
    obtain ⟨w2, htrace, hf, hs, hloop⟩ :=
      waitLoop_polls env cluster.GetName carina1 cl w1 n (m + 1) hcl hbusy1
    have hlast2 : env.Get cl w2.fetches cluster.GetName = .error e := by
      rw [hf, hf1]; simpa using hlast
    refine ⟨_, ?_, trace_after_fetch w2 w1 cluster.GetName n htrace, ?_, ?_⟩
    · unfold MakeSwarm.WaitUntilClusterIsActive
      rw [if_neg (by simp [hc]), waitLoop_init env carina carina1 w w1 _ _ hinit, hloop,
        waitLoop_failed env _ carina1 cl w2 m e hcl hlast2]
    · rw [fetches_call_get, fetches_writeDebug, hf, hf1, Nat.add_assoc]
    · rw [sleeps_call_get, sleeps_writeDebug, hs, hs1, Nat.add_sub_cancel]

/-- Witness of C4. First part: an unauthenticated client whose authentication
fails. Second part: input `building`, the backend answers `building` once and
then fails with a transport error (`k = 2`). -/
theorem waitUntil_stops_at_failed_fetch_witness :
    freshClient.WaitUntilClusterIsActive lockedEnv 1 World.empty
        ⟨⟨"c", "building", 1, false⟩⟩ =
      some ((none, some (Error.new "invalid API key")),
        { freshClient with Account := freshClient.Account },
        World.empty.call Call.Authenticate) ∧
    ∃ w2 : World,
      readyClient.WaitUntilClusterIsActive (scriptedEnv [.ok ⟨"c", "building", 1, false⟩]) 5
          World.empty ⟨⟨"c", "building", 1, false⟩⟩ =
        some ((none, some (Error.wrap (Error.new "connection refused")
          ("[make-swarm] Unable to retrieve cluster (" ++
            Cluster.GetName ⟨⟨"c", "building", 1, false⟩⟩ ++ ")"))), readyClient, w2) ∧
      w2.trace = World.empty.trace ++
        (List.replicate 2 (Call.Get (Cluster.GetName ⟨⟨"c", "building", 1, false⟩⟩))).intersperse
          (Call.Sleep clusterPollingInterval) ∧
      w2.fetches = World.empty.fetches + 2 ∧ w2.sleeps = World.empty.sleeps + (2 - 1) :=
  ⟨(waitUntil_stops_at_failed_fetch lockedEnv 1 freshClient World.empty
      ⟨⟨"c", "building", 1, false⟩⟩ (by decide) (by decide)).1
      (Error.new "invalid API key") freshClient.Account rfl rfl,
   (waitUntil_stops_at_failed_fetch (scriptedEnv [.ok ⟨"c", "building", 1, false⟩]) 5
    readyClient World.empty ⟨⟨"c", "building", 1, false⟩⟩ (by decide) (by decide)).2
    2 readyClient World.empty ⟨"alice", "t0", "https://swarm.example"⟩
    (Error.new "connection refused") (by decide) (by decide) (by decide) (by decide)
    (fun i hi => by
      have hi0 : i = 0 := by omega
      subst hi0
      exact ⟨⟨"c", "building", 1, false⟩, rfl, by decide⟩)
    rfl⟩

/-! ### C9: operations the backend does not support -/

/-- C9: for every environment, client state, world and argument pair,
`ResizeCluster` returns a nil cluster and one fixed error, the same for all of
them, whose message ends with the advice to use 'grow'; `ListClusterTemplates`
returns a nil list and one fixed error. Both leave the client state and the
world as they were: no authentication, no backend call, the session field
untouched. -/
theorem unsupported_operations_fail_without_calls (env env2 : Env) (carina carina2 : MakeSwarm)
    (w w2 : World) (token token2 : String) (nodes nodes2 : Int) :
    carina.ResizeCluster env w token nodes =
      ((none, some (Error.new
        "[make-swarm] Resizing clusters from the carina cli is not supported. Please use 'grow'.")),
        carina, w) ∧
    (carina.ResizeCluster env w token nodes).1 =
      (carina2.ResizeCluster env2 w2 token2 nodes2).1 ∧
    (∀ err, (carina.ResizeCluster env w token nodes).1.2 = some err →
      err.Error = "[make-swarm] Resizing clusters from the carina cli is not supported. " ++
        "Please use 'grow'.") ∧
    carina.ListClusterTemplates env w =
      ((none, some (Error.new
        "make-swarm does not support templates, use `carina create [cluster-name]` and omit the --template flag")),
        carina, w) ∧
    (carina.ListClusterTemplates env w).1 = (carina2.ListClusterTemplates env2 w2).1 := by
  refine ⟨rfl, rfl, ?_, rfl, rfl⟩
  intro err h
  simp only [MakeSwarm.ResizeCluster, Option.some.injEq] at h
  subst h
  decide

theorem CreateCluster_eq (env : Env) (carina carina1 : MakeSwarm) (w w1 : World)
    (cl : ClusterClient) (name template : String) (nodes : Int)
    (hinit : carina.init env w = (none, carina1, w1)) (hcl : carina1.client = some cl) :
    carina.CreateCluster env w name template nodes =
      match env.Create cl (w1.seq (Call.Create ⟨name, "", nodes, false⟩))
          ⟨name, "", nodes, false⟩ with
      | .error err =>
        ((none, some (Error.wrap err "[make-swarm] Unable to create the cluster")), carina1,
          ⟨w1.trace ++ [Call.Create ⟨name, "", nodes, false⟩],
            w1.log ++
              (if template ≠ "" then
                [LogEntry.Warning "[make-swarm] Ignoring --template, not supported." []]
              else []) ++
              [LogEntry.Debug "[make-swarm] Creating %d-node cluster (%s)"
                [toString nodes, name]]⟩)
      | .ok result =>
        ((some ⟨result⟩, none), carina1,
          ⟨w1.trace ++ [Call.Create ⟨name, "", nodes, false⟩],
            w1.log ++
              (if template ≠ "" then
                [LogEntry.Warning "[make-swarm] Ignoring --template, not supported." []]
              else []) ++
              [LogEntry.Debug "[make-swarm] Creating %d-node cluster (%s)"
                [toString nodes, name]]⟩) := by
  unfold MakeSwarm.CreateCluster
  rw [hinit]
  by_cases ht : template = ""
  · simp only [ht, hcl, ne_eq, not_true_eq_false, if_false, List.append_nil]
    rfl
  · simp only [ht, hcl, ne_eq, not_false_eq_true, if_true]
    rfl

theorem CreateCluster_init_failed (env : Env) (carina carina1 : MakeSwarm) (w w1 : World)
    (name template : String) (nodes : Int) (err : Error)
    (hinit : carina.init env w = (some err, carina1, w1)) :
    carina.CreateCluster env w name template nodes = ((none, some err), carina1, w1) := by
  unfold MakeSwarm.CreateCluster
  rw [hinit]

/-! ### C10: the template argument of `CreateCluster` -/

/-- C10: for every environment, client state, world, name, node count and any
two templates, `CreateCluster` returns the same cluster and error, leaves the
same client state and makes the same outside calls. When `init` succeeds the
one call after it is `Create` with `ClusterName = name`, `Nodes = nodes`,
`AutoScale = false`; the log gets the warning exactly when the template is not
empty, followed by the debug line; and when the backend create answers with a
cluster, the call returns that cluster, wrapped, with a nil error. -/
theorem createCluster_ignores_template (env : Env) (carina : MakeSwarm) (w : World)
    (name t1 t2 : String) (nodes : Int) :
    (carina.CreateCluster env w name t1 nodes).1 = (carina.CreateCluster env w name t2 nodes).1 ∧
    (carina.CreateCluster env w name t1 nodes).2.1 =
      (carina.CreateCluster env w name t2 nodes).2.1 ∧
    (carina.CreateCluster env w name t1 nodes).2.2.trace =
      (carina.CreateCluster env w name t2 nodes).2.2.trace ∧
    (∀ (carina1 : MakeSwarm) (w1 : World) (cl : ClusterClient),
      carina.init env w = (none, carina1, w1) → carina1.client = some cl →
      (carina.CreateCluster env w name t1 nodes).2.2.trace =
        w1.trace ++ [Call.Create ⟨name, "", nodes, false⟩] ∧
      (carina.CreateCluster env w name t1 nodes).2.2.log =
        w1.log ++
          (if t1 ≠ "" then
            [LogEntry.Warning "[make-swarm] Ignoring --template, not supported." []]
          else []) ++
          [LogEntry.Debug "[make-swarm] Creating %d-node cluster (%s)" [toString nodes, name]] ∧
      ∀ result : LibCluster,
        env.Create cl (w1.seq (Call.Create ⟨name, "", nodes, false⟩)) ⟨name, "", nodes, false⟩ =
          .ok result →
        (carina.CreateCluster env w name t1 nodes).1 = (some ⟨result⟩, none) ∧
        (carina.CreateCluster env w name t1 nodes).2.1 = carina1) := by
  rcases h : carina.init env w with ⟨oe, c1, w1⟩
  cases oe with
  | some err =>
    simp only [CreateCluster_init_failed env carina c1 w w1 name _ nodes err h, true_and]
    intro carina1 w2 cl hinit
    simp at hinit
  | none =>
    obtain ⟨⟨cl, hcl⟩, -, -⟩ := init_ok env carina c1 w w1 h
    rw [CreateCluster_eq env carina c1 w w1 cl name t1 nodes h hcl,
      CreateCluster_eq env carina c1 w w1 cl name t2 nodes h hcl]
    refine ⟨?_, ?_, ?_, ?_⟩
    · cases env.Create cl (w1.seq (Call.Create ⟨name, "", nodes, false⟩))
        ⟨name, "", nodes, false⟩ <;> rfl
    · cases env.Create cl (w1.seq (Call.Create ⟨name, "", nodes, false⟩))
        ⟨name, "", nodes, false⟩ <;> rfl
    · cases env.Create cl (w1.seq (Call.Create ⟨name, "", nodes, false⟩))
        ⟨name, "", nodes, false⟩ <;> rfl
    · intro carina1 w2 cl2 hinit hcl2
      simp only [Prod.mk.injEq, true_and] at hinit
      obtain ⟨rfl, rfl⟩ := hinit
      rw [hcl] at hcl2
      obtain rfl := Option.some.inj hcl2
      refine ⟨?_, ?_, ?_⟩
      · cases env.Create cl (w1.seq (Call.Create ⟨name, "", nodes, false⟩))
          ⟨name, "", nodes, false⟩ <;> rfl
      · cases env.Create cl (w1.seq (Call.Create ⟨name, "", nodes, false⟩))
          ⟨name, "", nodes, false⟩ <;> rfl
      · intro result hres
        rw [hres]
        exact ⟨rfl, rfl⟩

/-- Witness of C10: `CreateCluster("demo", template, 3)` on an unauthenticated
client against a backend that creates what is asked. The empty template and
the template `swarm` give the same result, the cluster named `demo`; the
request sent is (`demo`, 3 nodes, no autoscale); the call without template
logs no warning. -/
theorem createCluster_ignores_template_witness :
    (freshClient.CreateCluster (scriptedEnv []) World.empty "demo" "" 3).1 =
      (freshClient.CreateCluster (scriptedEnv []) World.empty "demo" "swarm" 3).1 ∧
    ((freshClient.CreateCluster (scriptedEnv []) World.empty "demo" "" 3).2.2.trace =
        (World.empty.call Call.Authenticate).trace ++ [Call.Create ⟨"demo", "", 3, false⟩] ∧
      (freshClient.CreateCluster (scriptedEnv []) World.empty "demo" "" 3).2.2.log =
        (World.empty.call Call.Authenticate).log ++
          (if ("" : String) ≠ "" then
            [LogEntry.Warning "[make-swarm] Ignoring --template, not supported." []]
          else []) ++
          [LogEntry.Debug "[make-swarm] Creating %d-node cluster (%s)" [toString (3 : Int), "demo"]]) ∧
    (freshClient.CreateCluster (scriptedEnv []) World.empty "demo" "" 3).1 =
      (some ⟨⟨"demo", "new", 3, false⟩⟩, none) :=
  have h := createCluster_ignores_template (scriptedEnv []) freshClient World.empty
    "demo" "" "swarm" 3
  have h2 := h.2.2.2 ⟨some ⟨"alice", "", "https://swarm.example"⟩, freshClient.Account⟩
    (World.empty.call Call.Authenticate) ⟨"alice", "", "https://swarm.example"⟩ rfl rfl
  ⟨h.1, ⟨h2.1, h2.2.1⟩, (h2.2.2 ⟨"demo", "new", 3, false⟩ rfl).1⟩


/-! ## Properties of the Magnum account -/

theorem length_bigEndian (n x : Nat) : (bigEndian n x).length = n := by
  simp [bigEndian]

theorem lt_of_mem_bigEndian (n x b : Nat) (h : b ∈ bigEndian n x) : b < 256 := by
  simp only [bigEndian, List.mem_map] at h
  obtain ⟨i, -, rfl⟩ := h
  exact Nat.mod_lt _ (by decide)

theorem length_sha1Sum (data : List Nat) : (sha1Sum data).length = 20 := by
  simp [sha1Sum, length_bigEndian]

theorem lt_of_mem_sha1Sum (data : List Nat) (b : Nat) (h : b ∈ sha1Sum data) : b < 256 := by
  simp only [sha1Sum, List.mem_append] at h
  rcases h with (((h | h) | h) | h) | h <;> exact lt_of_mem_bigEndian _ _ _ h

theorem length_hex (bs : List Nat) : (hex bs).length = 2 * bs.length := by
  induction bs with
  | nil => rfl
  | cons b bs ih =>
    simp only [hex, String.length, List.flatMap_cons, List.length_append, List.length_cons,
      List.length_nil] at ih ⊢
    omega

theorem hexDigit_inj : ∀ n, n < 16 → ∀ m, m < 16 → hexDigit n = hexDigit m → n = m := by
  decide

theorem hex_inj : ∀ (as bs : List Nat), (∀ b ∈ as, b < 256) → (∀ b ∈ bs, b < 256) →
    as.length = bs.length → hex as = hex bs → as = bs := by
  intro as
  induction as with
  | nil =>
    intro bs _ _ hlen _
    cases bs with
    | nil => rfl
    | cons b bs => simp at hlen
  | cons a as ih =>
    intro bs ha hb hlen h
    cases bs with
    | nil => simp at hlen
    | cons b bs =>
      have h0 := congrArg String.data h
      simp only [hex, List.flatMap_cons, List.cons_append, List.nil_append,
        List.cons.injEq] at h0
      obtain ⟨h1, h2, h3⟩ := h0
      have ha256 : a < 256 := ha a (List.mem_cons_self _ _)
      have hb256 : b < 256 := hb b (List.mem_cons_self _ _)
      have hq := hexDigit_inj (a / 16) (by omega) (b / 16) (by omega) h1
      have hr := hexDigit_inj (a % 16) (Nat.mod_lt _ (by decide)) (b % 16)
        (Nat.mod_lt _ (by decide)) h2
      have hab : a = b := by omega
      have htl := ih bs (fun x hx => ha x (List.mem_cons_of_mem _ hx))
        (fun x hx => hb x (List.mem_cons_of_mem _ hx)) (by simpa using hlen)
        (by simp only [hex]; exact congrArg String.mk h3)
      rw [hab, htl]

/-! ### C6: different accounts, different identifiers -/

set_option maxRecDepth 100000 in
/-- C6, as stated, fails on the code: two accounts that differ in
`AuthEndpoint` (and in nothing else) have the same identifier, because the
first four bytes of the SHA-1 digests of the two endpoints are equal
(`5b5d0040`). -/
theorem getID_collision :
    (⟨"https://keystone14482.example.com:5000/v3", "", "alice", "", "", "", "", ""⟩ :
        MagnumAccount).AuthEndpoint ≠
      (⟨"https://keystone64496.example.com:5000/v3", "", "alice", "", "", "", "", ""⟩ :
        MagnumAccount).AuthEndpoint ∧
    (⟨"https://keystone14482.example.com:5000/v3", "", "alice", "", "", "", "", ""⟩ :
        MagnumAccount).GetID = "private-5b5d0040-alice" ∧
    (⟨"https://keystone64496.example.com:5000/v3", "", "alice", "", "", "", "", ""⟩ :
        MagnumAccount).GetID = "private-5b5d0040-alice" := by
  decide

theorem getID_parts (a b : MagnumAccount) (h : a.GetID = b.GetID) :
    (sha1Sum (bytesOf a.AuthEndpoint)).take 4 = (sha1Sum (bytesOf b.AuthEndpoint)).take 4 ∧
      a.UserName = b.UserName := by
  have hlen : ∀ x : MagnumAccount, ((sha1Sum (bytesOf x.AuthEndpoint)).take 4).length = 4 := by
    intro x
    rw [List.length_take, length_sha1Sum]
    rfl
  have hd := congrArg String.data h
  simp only [MagnumAccount.GetID, String.data_append, List.append_assoc] at hd
  have hd2 := List.append_cancel_left hd
  have hl : (hex ((sha1Sum (bytesOf a.AuthEndpoint)).take 4)).data.length =
      (hex ((sha1Sum (bytesOf b.AuthEndpoint)).take 4)).data.length := by
    have ha := length_hex ((sha1Sum (bytesOf a.AuthEndpoint)).take 4)
    have hb := length_hex ((sha1Sum (bytesOf b.AuthEndpoint)).take 4)
    rw [hlen] at ha hb
    simp only [String.length] at ha hb
    rw [ha, hb]
  obtain ⟨h1, h2⟩ := List.append_inj hd2 hl
  constructor
  · refine hex_inj _ _ ?_ ?_ ?_ (String.ext h1)
    · intro x hx
      exact lt_of_mem_sha1Sum _ x (List.mem_of_mem_take hx)
    · intro x hx
      exact lt_of_mem_sha1Sum _ x (List.mem_of_mem_take hx)
    · rw [hlen, hlen]
  · exact String.ext (List.append_cancel_left h2)

/-- C6, amended: for all accounts `a` and `b`, if they differ in `UserName`,
or if the first four bytes of the SHA-1 digests of their `AuthEndpoint`s
differ, then `GetID(a)` differs from `GetID(b)`. Two different `AuthEndpoint`s
whose digests agree on the first four bytes are not told apart. -/
theorem getID_differs (a b : MagnumAccount)
    (h : a.UserName ≠ b.UserName ∨
      (sha1Sum (bytesOf a.AuthEndpoint)).take 4 ≠ (sha1Sum (bytesOf b.AuthEndpoint)).take 4) :
    a.GetID ≠ b.GetID := by
  intro heq
  obtain ⟨h1, h2⟩ := getID_parts a b heq
  rcases h with h | h
  · exact h h2
  · exact h h1

/-- Witness of C6 amended: same endpoint, user names `alice` and `bob`. -/
theorem getID_differs_witness :
    MagnumAccount.GetID ⟨"https://keystone.example.com:5000/v3", "", "alice", "", "", "", "", ""⟩ ≠
      MagnumAccount.GetID ⟨"https://keystone.example.com:5000/v3", "", "bob", "", "", "", "", ""⟩ :=
  getID_differs _ _ (Or.inl (by decide))

/-! ### C7: the identifier depends on the endpoint and the user name only -/

/-- C7: two accounts with the same `AuthEndpoint` and the same `UserName` have
the same identifier, whatever their other six fields; the identifier is
`private-`, then the hexadecimal form of the first four bytes of the SHA-1
digest of `AuthEndpoint` (four bytes, eight digits), then `-`, then the
`UserName`. -/
theorem getID_depends_on_endpoint_and_username (a b : MagnumAccount)
    (hendpoint : a.AuthEndpoint = b.AuthEndpoint) (huser : a.UserName = b.UserName) :
    a.GetID = b.GetID ∧
    a.GetID = "private-" ++ hex ((sha1Sum (bytesOf a.AuthEndpoint)).take 4) ++ "-" ++ a.UserName ∧
    ((sha1Sum (bytesOf a.AuthEndpoint)).take 4).length = 4 ∧
    (hex ((sha1Sum (bytesOf a.AuthEndpoint)).take 4)).length = 8 := by
  have hlen : ((sha1Sum (bytesOf a.AuthEndpoint)).take 4).length = 4 := by
    rw [List.length_take, length_sha1Sum]
    rfl
  refine ⟨?_, rfl, hlen, ?_⟩
  · simp only [MagnumAccount.GetID, hendpoint, huser]
  · rw [length_hex, hlen]

/-- Witness of C7: two accounts that agree on `AuthEndpoint` and `UserName`
and differ in every other field. -/
theorem getID_depends_on_endpoint_and_username_witness :
    MagnumAccount.GetID ⟨"https://keystone.example.com:5000/v3", "https://m1", "alice", "pw1",
        "p1", "d1", "r1", "t1"⟩ =
      MagnumAccount.GetID ⟨"https://keystone.example.com:5000/v3", "", "alice", "pw2",
        "p2", "d2", "r2", ""⟩ :=
  (getID_depends_on_endpoint_and_username
    ⟨"https://keystone.example.com:5000/v3", "https://m1", "alice", "pw1", "p1", "d1", "r1", "t1"⟩
    ⟨"https://keystone.example.com:5000/v3", "", "alice", "pw2", "p2", "d2", "r2", ""⟩
    rfl rfl).1

/-! ### C8: the cache round trip -/

/-- C8: for all accounts `a` and `b`, applying the cache built from `a` to `b`
gives `b` the `Endpoint` and the `Token` of `a` and leaves the six other
fields of `b` as they were; applied to `a` itself it gives `a` back. -/
theorem applyCache_buildCache (a b : MagnumAccount) :
    (b.ApplyCache a.BuildCache).Endpoint = a.Endpoint ∧
    (b.ApplyCache a.BuildCache).Token = a.Token ∧
    (b.ApplyCache a.BuildCache).AuthEndpoint = b.AuthEndpoint ∧
    (b.ApplyCache a.BuildCache).UserName = b.UserName ∧
    (b.ApplyCache a.BuildCache).Password = b.Password ∧
    (b.ApplyCache a.BuildCache).Project = b.Project ∧
    (b.ApplyCache a.BuildCache).Domain = b.Domain ∧
    (b.ApplyCache a.BuildCache).Region = b.Region ∧
    a.ApplyCache a.BuildCache = a := by
  have he : StringMap.index a.BuildCache "endpoint" = a.Endpoint := by
    simp [StringMap.index, MagnumAccount.BuildCache, List.lookup]
  have ht : StringMap.index a.BuildCache "token" = a.Token := by
    simp [StringMap.index, MagnumAccount.BuildCache, List.lookup]
  refine ⟨he, ht, rfl, rfl, rfl, rfl, rfl, rfl, ?_⟩
  simp only [MagnumAccount.ApplyCache, he, ht]

/-! ### C5: a cached token whose probe fails -/

theorem authenticate_failed_probe_eq (lib : Identity) (account : MagnumAccount) (e : Error)
    (htoken : account.Token ≠ "") (hprobe : (testAuth lib account).1 = some e) :
    account.Authenticate lib =
      MagnumAccount.passwordAuth lib { account with Token := "" }
        ⟨account.AuthEndpoint, account.UserName, account.Password, account.Project,
          account.Domain, account.Token⟩
        (testAuth lib account).2
        [LogEntry.Debug "[magnum] Attempting to authenticate with a cached token for %s"
            [account.Endpoint],
          LogEntry.Debug "[magnum] Discarding expired cached token" []] := by
  unfold MagnumAccount.Authenticate
  simp only [htoken, ne_eq, not_false_eq_true, if_true, hprobe]
  rfl

theorem testAuth_calls (lib : Identity) (account : MagnumAccount) (endpoint : String) :
    AuthCall.NewClient endpoint ∉ (testAuth lib account).2 := by
  unfold testAuth
  dsimp only
  cases lib.NewRequest "HEAD" (account.AuthEndpoint ++ "/auth/tokens") with
  | error err => simp
  | ok req =>
    dsimp only
    cases lib.Do lib.httpTimeout (((req.Set "User-Agent" "getcarina/carina dummy request").Add
        "X-Auth-Token" account.Token).Add "X-Subject-Token" account.Token) with
    | error err => simp
    | ok resp =>
      dsimp only
      split <;> simp

theorem passwordAuth_congr (lib : Identity) (account : MagnumAccount) (o1 o2 : AuthOptions)
    (c1 c2 : List AuthCall) (l1 l2 : List LogEntry)
    (h : lib.AuthenticatedClient o1 = lib.AuthenticatedClient o2) :
    (account.passwordAuth lib o1 c1 l1).ret = (account.passwordAuth lib o2 c2 l2).ret ∧
      (account.passwordAuth lib o1 c1 l1).account =
        (account.passwordAuth lib o2 c2 l2).account := by
  unfold MagnumAccount.passwordAuth
  rw [h]
  cases lib.AuthenticatedClient o2 with
  | error err => exact ⟨rfl, rfl⟩
  | ok identity =>
    dsimp only
    cases lib.NewContainerOrchestrationV1 identity ⟨account.Region⟩ <;> exact ⟨rfl, rfl⟩

/-- C5, as stated, fails on the code. The account `tokenOnlyAccount` holds the
cached token `cached` and no password; its probe fails in transport.
`Authenticate` then calls the full exchange with `TokenID = "cached"`, the
library exchanges by token, and the session returned is the one the service
issued for that token. The same account without cached token gets no
session: the exchange has nothing to present. -/
theorem authenticate_session_from_cached_token :
    (testAuth tokenExchangeLib tokenOnlyAccount).1 =
      some (Error.new "net/http: request canceled (Client.Timeout exceeded)") ∧
    AuthCall.AuthenticatedClient
        ⟨"https://keystone.example.com:5000/v3", "", "", "", "", "cached"⟩ ∈
      (tokenOnlyAccount.Authenticate tokenExchangeLib).calls ∧
    (tokenOnlyAccount.Authenticate tokenExchangeLib).ret =
      (some ⟨⟨"https://keystone.example.com:5000/v3", "issued-for-cached", none, [],
          15 * Second, EndpointLocator.catalog⟩, "https://magnum.example.com:9511/v1"⟩, none) ∧
    (MagnumAccount.Authenticate tokenExchangeLib { tokenOnlyAccount with Token := "" }).ret =
      (none, some (Error.wrap (Error.new "You must provide a password to authenticate")
        "[magnum] Authentication failed")) := by
  decide

/-- C5, amended: for every library and every account with a non-empty cached
token whose probe fails, `Authenticate` does not take the cached-token path
(no `NewClient` call): it clears `Token` on the account and calls the full
exchange with the options built before the probe, which hold the user name,
password, project and domain and still hold the cached token as `TokenID`.
It returns either a nil session with a wrapped error, the account left
without token, or the session made from the provider client of that exchange,
the account's `Token` and `Endpoint` taken from it. Whenever the exchange
answers the same with and without that `TokenID`, the returned pair and the
account are those of the same account without cached token. -/
theorem authenticate_after_failed_probe (lib : Identity) (account : MagnumAccount)
    (e : Error) (htoken : account.Token ≠ "") (hprobe : (testAuth lib account).1 = some e) :
    (∀ endpoint, AuthCall.NewClient endpoint ∉ (account.Authenticate lib).calls) ∧
    AuthCall.AuthenticatedClient
        ⟨account.AuthEndpoint, account.UserName, account.Password, account.Project,
          account.Domain, account.Token⟩ ∈ (account.Authenticate lib).calls ∧
    ((∃ err, (account.Authenticate lib).ret = (none, some err) ∧
        (account.Authenticate lib).account = { account with Token := "" }) ∨
      ∃ identity magnumClient,
        lib.AuthenticatedClient
            ⟨account.AuthEndpoint, account.UserName, account.Password, account.Project,
              account.Domain, account.Token⟩ = .ok identity ∧
        lib.NewContainerOrchestrationV1 identity ⟨account.Region⟩ = .ok magnumClient ∧
        (account.Authenticate lib).ret =
          (some { magnumClient with
            ProviderClient := { magnumClient.ProviderClient with Timeout := lib.httpTimeout } },
            none) ∧
        (account.Authenticate lib).account =
          { account with
            Token := magnumClient.ProviderClient.TokenID, Endpoint := magnumClient.Endpoint }) ∧
    (lib.AuthenticatedClient
          ⟨account.AuthEndpoint, account.UserName, account.Password, account.Project,
            account.Domain, account.Token⟩ =
        lib.AuthenticatedClient
          ⟨account.AuthEndpoint, account.UserName, account.Password, account.Project,
            account.Domain, ""⟩ →
      (account.Authenticate lib).ret =
          (MagnumAccount.Authenticate lib { account with Token := "" }).ret ∧
        (account.Authenticate lib).account =
          (MagnumAccount.Authenticate lib { account with Token := "" }).account) := by
  rw [authenticate_failed_probe_eq lib account e htoken hprobe]
  refine ⟨?_, ?_, ?_, ?_⟩
  · intro endpoint
    have hp := testAuth_calls lib account endpoint
    unfold MagnumAccount.passwordAuth
    cases lib.AuthenticatedClient ⟨account.AuthEndpoint, account.UserName, account.Password,
        account.Project, account.Domain, account.Token⟩ with
    | error err => simpa using hp
    | ok identity =>
      dsimp only
      cases lib.NewContainerOrchestrationV1 identity ⟨account.Region⟩ <;> simpa using hp
  · unfold MagnumAccount.passwordAuth
    cases lib.AuthenticatedClient ⟨account.AuthEndpoint, account.UserName, account.Password,
        account.Project, account.Domain, account.Token⟩ with
    | error err => simp
    | ok identity =>
      dsimp only
      cases lib.NewContainerOrchestrationV1 identity ⟨account.Region⟩ <;> simp
  · unfold MagnumAccount.passwordAuth
    cases h1 : lib.AuthenticatedClient ⟨account.AuthEndpoint, account.UserName,
        account.Password, account.Project, account.Domain, account.Token⟩ with
    | error err => exact Or.inl ⟨_, rfl, rfl⟩
    | ok identity =>
      dsimp only
      cases h2 : lib.NewContainerOrchestrationV1 identity ⟨account.Region⟩ with
      | error err => exact Or.inl ⟨_, rfl, rfl⟩
      | ok magnumClient => exact Or.inr ⟨identity, magnumClient, rfl, h2, rfl, rfl⟩
  · intro hsame
    have hfresh : MagnumAccount.Authenticate lib { account with Token := "" } =
        MagnumAccount.passwordAuth lib { account with Token := "" }
          ⟨account.AuthEndpoint, account.UserName, account.Password, account.Project,
            account.Domain, ""⟩ [] [] := by
      unfold MagnumAccount.Authenticate
      simp
    rw [hfresh]
    exact passwordAuth_congr lib _ _ _ _ _ _ _ hsame

/-- Witness of C5 amended: the account `staleAccount` (token `stale`, password
`secret`), the probe failing in transport, against the library whose password
exchange does not read `TokenID`. The exchange is called with `TokenID =
"stale"`, and the result is the one of the account without cached token: the
session with the token `fresh`. -/
theorem authenticate_after_failed_probe_witness :
    AuthCall.AuthenticatedClient
        ⟨"https://keystone.example.com:5000/v3", "alice", "secret", "demo", "default", "stale"⟩ ∈
      (staleAccount.Authenticate tokenExchangeLib).calls ∧
    ((staleAccount.Authenticate tokenExchangeLib).ret =
        (MagnumAccount.Authenticate tokenExchangeLib { staleAccount with Token := "" }).ret ∧
      (staleAccount.Authenticate tokenExchangeLib).account =
        (MagnumAccount.Authenticate tokenExchangeLib { staleAccount with Token := "" }).account) ∧
    (staleAccount.Authenticate tokenExchangeLib).account.Token = "fresh" :=
  have h := authenticate_after_failed_probe tokenExchangeLib staleAccount
    (Error.new "net/http: request canceled (Client.Timeout exceeded)") (by decide) (by decide)
  ⟨h.2.1, h.2.2.2 rfl, by decide⟩

/-! ## Properties of sequences of operations -/

theorem auths_writeDebug (w : World) (f : String) (a : List String) :
    (w.WriteDebug f a).auths = w.auths := rfl

theorem auths_writeWarning (w : World) (f : String) (a : List String) :
    (w.WriteWarning f a).auths = w.auths := rfl

theorem auths_call (w : World) (c : Call) :
    (w.call c).auths = w.auths + (if Call.sameOp Call.Authenticate c then 1 else 0) := by
  unfold World.auths
  rw [seq_call]

theorem init_state (env : Env) (carina : MakeSwarm) (w : World) :
    ((carina.init env w).1 = none → (carina.init env w).2.1.client ≠ none) ∧
    (carina.init env w).2.2.auths ≤ w.auths + 1 ∧
    (carina.client ≠ none → carina.init env w = (none, carina, w)) := by
  unfold MakeSwarm.init
  cases hc : carina.client with
  | some cl => simp [hc]
  | none =>
    cases ha : (env.Authenticate w.auths carina.Account).1 with
    | error err => simp [ha, auths_call, Call.sameOp]
    | ok carinaClient => simp [ha, auths_call, Call.sameOp]

theorem waitLoop_ready_state (env : Env) (name : String) (carina : MakeSwarm)
    (cl : ClusterClient) (hcl : carina.client = some cl) :
    ∀ (fuel : Nat) (w : World) (r : Ret Cluster) (carina1 : MakeSwarm) (w1 : World),
      carina.waitLoop env name fuel w = some (r, carina1, w1) →
      carina1 = carina ∧ w1.auths = w.auths := by
  intro fuel
  induction fuel with
  | zero => intro w r carina1 w1 h; simp [MakeSwarm.waitLoop] at h
  | succ fuel ih =>
    intro w r carina1 w1 h
    unfold MakeSwarm.waitLoop at h
    rw [GetCluster_ready env carina w cl name hcl] at h
    cases hg : env.Get cl w.fetches name with
    | error err =>
      simp only [hg, Option.some.injEq, Prod.mk.injEq] at h
      obtain ⟨-, h1, h2⟩ := h
      subst h1 h2
      exact ⟨rfl, by simp [auths_call, auths_writeDebug, Call.sameOp]⟩
    | ok result =>
      simp only [hg] at h
      by_cases hd : isDone env ⟨result⟩ = true
      · simp only [hd, if_true, Option.some.injEq, Prod.mk.injEq] at h
        obtain ⟨-, h1, h2⟩ := h
        subst h1 h2
        exact ⟨rfl, by simp [auths_call, auths_writeDebug, Call.sameOp]⟩
      · simp only [hd] at h
        obtain ⟨h1, h2⟩ := ih _ r carina1 w1 h
        refine ⟨h1, ?_⟩
        rw [h2]
        simp [auths_call, auths_writeDebug, Call.sameOp]

theorem GetQuotas_state (env : Env) (carina : MakeSwarm) (w : World) :
    (carina.GetQuotas env w).2.1 = (carina.init env w).2.1 ∧
      (carina.GetQuotas env w).2.2.auths = (carina.init env w).2.2.auths := by
  unfold MakeSwarm.GetQuotas
  rcases carina.init env w with ⟨_ | err, c1, w1⟩
  · dsimp only
    cases c1.client with
    | none => exact ⟨rfl, rfl⟩
    | some client =>
      dsimp only
      split <;> exact ⟨rfl, by simp [auths_call, auths_writeDebug, auths_writeWarning, Call.sameOp]⟩
  · exact ⟨rfl, rfl⟩

theorem CreateCluster_state (env : Env) (carina : MakeSwarm) (w : World)
    (name template : String) (nodes : Int) :
    (carina.CreateCluster env w name template nodes).2.1 = (carina.init env w).2.1 ∧
      (carina.CreateCluster env w name template nodes).2.2.auths =
        (carina.init env w).2.2.auths := by
  unfold MakeSwarm.CreateCluster
  rcases carina.init env w with ⟨_ | err, c1, w1⟩
  · by_cases ht : template = "" <;>
      simp only [ht, ne_eq, not_true_eq_false, not_false_eq_true, if_true, if_false] <;>
      cases c1.client <;> dsimp only <;> (try split) <;>
      exact ⟨rfl, by simp [auths_call, auths_writeDebug, auths_writeWarning, Call.sameOp]⟩
  · exact ⟨rfl, rfl⟩

theorem GetClusterCredentials_state (env : Env) (carina : MakeSwarm) (w : World) (name : String) :
    (carina.GetClusterCredentials env w name).2.1 = (carina.init env w).2.1 ∧
      (carina.GetClusterCredentials env w name).2.2.auths = (carina.init env w).2.2.auths := by
  unfold MakeSwarm.GetClusterCredentials
  rcases carina.init env w with ⟨_ | err, c1, w1⟩
  · dsimp only
    cases c1.client with
    | none => exact ⟨rfl, rfl⟩
    | some client =>
      dsimp only
      split <;> exact ⟨rfl, by simp [auths_call, auths_writeDebug, auths_writeWarning, Call.sameOp]⟩
  · exact ⟨rfl, rfl⟩

theorem ListClusters_state (env : Env) (carina : MakeSwarm) (w : World) :
    (carina.ListClusters env w).2.1 = (carina.init env w).2.1 ∧
      (carina.ListClusters env w).2.2.auths = (carina.init env w).2.2.auths := by
  unfold MakeSwarm.ListClusters
  rcases carina.init env w with ⟨_ | err, c1, w1⟩
  · dsimp only
    cases c1.client with
    | none => exact ⟨rfl, rfl⟩
    | some client =>
      dsimp only
      split <;> exact ⟨rfl, by simp [auths_call, auths_writeDebug, auths_writeWarning, Call.sameOp]⟩
  · exact ⟨rfl, rfl⟩

theorem RebuildCluster_state (env : Env) (carina : MakeSwarm) (w : World) (name : String) :
    (carina.RebuildCluster env w name).2.1 = (carina.init env w).2.1 ∧
      (carina.RebuildCluster env w name).2.2.auths = (carina.init env w).2.2.auths := by
  unfold MakeSwarm.RebuildCluster
  rcases carina.init env w with ⟨_ | err, c1, w1⟩
  · dsimp only
    cases c1.client with
    | none => exact ⟨rfl, rfl⟩
    | some client =>
      dsimp only
      split <;> exact ⟨rfl, by simp [auths_call, auths_writeDebug, auths_writeWarning, Call.sameOp]⟩
  · exact ⟨rfl, rfl⟩

theorem GetCluster_state (env : Env) (carina : MakeSwarm) (w : World) (name : String) :
    (carina.GetCluster env w name).2.1 = (carina.init env w).2.1 ∧
      (carina.GetCluster env w name).2.2.auths = (carina.init env w).2.2.auths := by
  unfold MakeSwarm.GetCluster
  rcases carina.init env w with ⟨_ | err, c1, w1⟩
  · dsimp only
    cases c1.client with
    | none => exact ⟨rfl, rfl⟩
    | some client =>
      dsimp only
      split <;> exact ⟨rfl, by simp [auths_call, auths_writeDebug, auths_writeWarning, Call.sameOp]⟩
  · exact ⟨rfl, rfl⟩

theorem DeleteCluster_state (env : Env) (carina : MakeSwarm) (w : World) (name : String) :
    (carina.DeleteCluster env w name).2.1 = (carina.init env w).2.1 ∧
      (carina.DeleteCluster env w name).2.2.auths = (carina.init env w).2.2.auths := by
  unfold MakeSwarm.DeleteCluster
  rcases carina.init env w with ⟨_ | err, c1, w1⟩
  · dsimp only
    cases c1.client with
    | none => exact ⟨rfl, rfl⟩
    | some client =>
      dsimp only
      split <;> exact ⟨rfl, by simp [auths_call, auths_writeDebug, auths_writeWarning, Call.sameOp]⟩
  · exact ⟨rfl, rfl⟩

theorem GrowCluster_state (env : Env) (carina : MakeSwarm) (w : World) (name : String) (nodes : Int) :
    (carina.GrowCluster env w name nodes).2.1 = (carina.init env w).2.1 ∧
      (carina.GrowCluster env w name nodes).2.2.auths = (carina.init env w).2.2.auths := by
  unfold MakeSwarm.GrowCluster
  rcases carina.init env w with ⟨_ | err, c1, w1⟩
  · dsimp only
    cases c1.client with
    | none => exact ⟨rfl, rfl⟩
    | some client =>
      dsimp only
      split <;> exact ⟨rfl, by simp [auths_call, auths_writeDebug, auths_writeWarning, Call.sameOp]⟩
  · exact ⟨rfl, rfl⟩

theorem SetAutoScale_state (env : Env) (carina : MakeSwarm) (w : World) (name : String) (value : Bool) :
    (carina.SetAutoScale env w name value).2.1 = (carina.init env w).2.1 ∧
      (carina.SetAutoScale env w name value).2.2.auths = (carina.init env w).2.2.auths := by
  unfold MakeSwarm.SetAutoScale
  rcases carina.init env w with ⟨_ | err, c1, w1⟩
  · dsimp only
    cases c1.client with
    | none => exact ⟨rfl, rfl⟩
    | some client =>
      dsimp only
      split <;> exact ⟨rfl, by simp [auths_call, auths_writeDebug, auths_writeWarning, Call.sameOp]⟩
  · exact ⟨rfl, rfl⟩

theorem GetCluster_ok_init (env : Env) (carina : MakeSwarm) (w : World) (name : String)
    (h : (carina.GetCluster env w name).1.2 = none) : (carina.init env w).1 = none := by
  unfold MakeSwarm.GetCluster at h
  rcases hi : carina.init env w with ⟨_ | err, c1, w1⟩
  · rfl
  · rw [hi] at h
    simp at h

theorem waitLoop_state (env : Env) (name : String) (carina carina1 : MakeSwarm)
    (fuel : Nat) (w w1 : World) (r : Ret Cluster)
    (h : carina.waitLoop env name fuel w = some (r, carina1, w1)) :
    carina1 = (carina.init env w).2.1 ∧ w1.auths = (carina.init env w).2.2.auths := by
  cases fuel with
  | zero => simp [MakeSwarm.waitLoop] at h
  | succ fuel =>
    unfold MakeSwarm.waitLoop at h
    have hs := GetCluster_state env carina w name
    have hok := GetCluster_ok_init env carina w name
    rcases hg : carina.GetCluster env w name with ⟨⟨oc, oe⟩, c2, w2⟩
    rw [hg] at h hs hok
    simp only at hs hok
    cases oe with
    | some err =>
      simp only [Option.some.injEq, Prod.mk.injEq] at h
      obtain ⟨-, h1, h2⟩ := h
      subst h1 h2
      exact hs
    | none =>
      cases oc with
      | none => simp at h
      | some cluster =>
        simp only at h
        by_cases hd : isDone env cluster = true
        · simp only [hd, if_true, Option.some.injEq, Prod.mk.injEq] at h
          obtain ⟨-, h1, h2⟩ := h
          subst h1 h2
          exact hs
        · simp only [hd] at h
          have hcl : c2.client ≠ none := by
            rw [hs.1]
            exact (init_state env carina w).1 (hok rfl)
          obtain ⟨cl, hcl2⟩ := Option.ne_none_iff_exists'.1 hcl
          obtain ⟨h1, h2⟩ := waitLoop_ready_state env name c2 cl hcl2 fuel _ r carina1 w1 h
          refine ⟨h1.trans hs.1, ?_⟩
          rw [h2, ← hs.2]
          simp [auths_call, auths_writeDebug, Call.sameOp]

theorem run_state (env : Env) (carina carina1 : MakeSwarm) (w w1 : World) (op : Op)
    (h : op.run env carina w = some (carina1, w1)) :
    (carina1 = carina ∧ w1.auths = w.auths) ∨
      (carina1 = (carina.init env w).2.1 ∧ w1.auths = (carina.init env w).2.2.auths) := by
  cases op with
  | GetQuotas =>
    simp only [Op.run, Option.some.injEq] at h
    have := GetQuotas_state env carina w
    rw [h] at this
    exact Or.inr this
  | CreateCluster name template nodes =>
    simp only [Op.run, Option.some.injEq] at h
    have := CreateCluster_state env carina w name template nodes
    rw [h] at this
    exact Or.inr this
  | GetClusterCredentials name =>
    simp only [Op.run, Option.some.injEq] at h
    have := GetClusterCredentials_state env carina w name
    rw [h] at this
    exact Or.inr this
  | ListClusters =>
    simp only [Op.run, Option.some.injEq] at h
    have := ListClusters_state env carina w
    rw [h] at this
    exact Or.inr this
  | ListClusterTemplates =>
    simp only [Op.run, MakeSwarm.ListClusterTemplates, Option.some.injEq, Prod.mk.injEq] at h
    exact Or.inl ⟨h.1.symm, by rw [h.2]⟩
  | RebuildCluster name =>
    simp only [Op.run, Option.some.injEq] at h
    have := RebuildCluster_state env carina w name
    rw [h] at this
    exact Or.inr this
  | GetCluster name =>
    simp only [Op.run, Option.some.injEq] at h
    have := GetCluster_state env carina w name
    rw [h] at this
    exact Or.inr this
  | DeleteCluster name =>
    simp only [Op.run, Option.some.injEq] at h
    have := DeleteCluster_state env carina w name
    rw [h] at this
    exact Or.inr this
  | GrowCluster name nodes =>
    simp only [Op.run, Option.some.injEq] at h
    have := GrowCluster_state env carina w name nodes
    rw [h] at this
    exact Or.inr this
  | ResizeCluster token nodes =>
    simp only [Op.run, MakeSwarm.ResizeCluster, Option.some.injEq, Prod.mk.injEq] at h
    exact Or.inl ⟨h.1.symm, by rw [h.2]⟩
  | SetAutoScale name value =>
    simp only [Op.run, Option.some.injEq] at h
    have := SetAutoScale_state env carina w name value
    rw [h] at this
    exact Or.inr this
  | WaitUntilClusterIsActive fuel cluster =>
    simp only [Op.run, MakeSwarm.WaitUntilClusterIsActive] at h
    by_cases hd : isDone env cluster = true
    · simp only [hd, if_true, Option.map_some', Option.some.injEq, Prod.mk.injEq] at h
      exact Or.inl ⟨h.1.symm, by rw [h.2]⟩
    · simp only [hd, Option.map_eq_some'] at h
      obtain ⟨⟨r, c2, w2⟩, hloop, heq⟩ := h
      simp only [Prod.mk.injEq] at heq
      obtain ⟨rfl, rfl⟩ := heq
      exact Or.inr (waitLoop_state env _ carina c2 fuel w w2 r hloop)
  | WaitUntilClusterIsDeleted cluster =>
    simp only [Op.run, MakeSwarm.WaitUntilClusterIsDeleted, Option.some.injEq,
      Prod.mk.injEq] at h
    exact Or.inl ⟨h.1.symm, by rw [h.2]⟩

theorem run_auths (env : Env) (carina carina1 : MakeSwarm) (w w1 : World) (op : Op)
    (h : op.run env carina w = some (carina1, w1)) :
    w1.auths ≤ w.auths + 1 ∧ (carina.client ≠ none → carina1 = carina ∧ w1.auths = w.auths) := by
  obtain ⟨-, hle, hready⟩ := init_state env carina w
  rcases run_state env carina carina1 w w1 op h with ⟨h1, h2⟩ | ⟨h1, h2⟩
  · exact ⟨by omega, fun _ => ⟨h1, h2⟩⟩
  · refine ⟨by omega, fun hc => ?_⟩
    rw [hready hc] at h1 h2
    exact ⟨h1, h2⟩

theorem runOps_append (env : Env) (ops1 ops2 : List Op) :
    ∀ (carina : MakeSwarm) (w : World),
      runOps env (ops1 ++ ops2) carina w =
        (runOps env ops1 carina w).bind fun s => runOps env ops2 s.1 s.2 := by
  induction ops1 with
  | nil => intro carina w; rfl
  | cons op ops ih =>
    intro carina w
    simp only [List.cons_append, runOps]
    cases op.run env carina w with
    | none => rfl
    | some s => exact ih s.1 s.2

theorem runOps_ready (env : Env) (ops : List Op) :
    ∀ (carina fin : MakeSwarm) (w wf : World), carina.client ≠ none →
      runOps env ops carina w = some (fin, wf) → fin = carina ∧ wf.auths = w.auths := by
  induction ops with
  | nil =>
    intro carina fin w wf _ h
    simp only [runOps, Option.some.injEq, Prod.mk.injEq] at h
    exact ⟨h.1.symm, by rw [h.2]⟩
  | cons op ops ih =>
    intro carina fin w wf hc h
    simp only [runOps] at h
    cases hop : op.run env carina w with
    | none => simp [hop] at h
    | some s =>
      obtain ⟨c1, w1⟩ := s
      simp only [hop] at h
      obtain ⟨h1, h2⟩ := (run_auths env carina c1 w w1 op hop).2 hc
      subst h1
      obtain ⟨h3, h4⟩ := ih c1 fin w1 wf hc h
      exact ⟨h3, h4.trans h2⟩

theorem runOps_bound (env : Env) (ops : List Op) :
    ∀ (carina fin : MakeSwarm) (w wf : World),
      runOps env ops carina w = some (fin, wf) → wf.auths ≤ w.auths + ops.length := by
  induction ops with
  | nil =>
    intro carina fin w wf h
    simp only [runOps, Option.some.injEq, Prod.mk.injEq] at h
    simp [h.2]
  | cons op ops ih =>
    intro carina fin w wf h
    simp only [runOps] at h
    cases hop : op.run env carina w with
    | none => simp [hop] at h
    | some s =>
      obtain ⟨c1, w1⟩ := s
      simp only [hop] at h
      have h1 := (run_auths env carina c1 w w1 op hop).1
      have h2 := ih c1 fin w1 wf h
      simp only [List.length_cons]
      omega

/-! ### C11: the session is authenticated once and reused -/

/-- C11, as stated, fails on the code: three operations on one fresh client
against a backend whose first authentication fails in transport call
`Account.Authenticate` twice. The first operation authenticates and fails,
the second authenticates again (no session was stored) and succeeds, the
third reuses the session. -/
theorem authenticate_invoked_twice :
    runOps flakyEnv [Op.GetQuotas, Op.ListClusters, Op.GetQuotas] freshClient World.empty =
      some (⟨some ⟨"alice", "", "https://swarm.example"⟩, freshClient.Account⟩,
        ⟨[Call.Authenticate, Call.Authenticate, Call.List, Call.GetQuotas],
          [LogEntry.Debug "[make-swarm] Listing clusters" [],
            LogEntry.Debug "[make-swarm] Retrieving account quotas" []]⟩) ∧
    World.auths ⟨[Call.Authenticate, Call.Authenticate, Call.List, Call.GetQuotas],
        [LogEntry.Debug "[make-swarm] Listing clusters" [],
          LogEntry.Debug "[make-swarm] Retrieving account quotas" []]⟩ = 2 := by
  decide

/-- C11, amended: take any sequence of operations on one `MakeSwarm` value,
split at a point where a session is stored (`client` is not nil). Then the
operations after that point leave the client as it is (same session, same
account) and do not call `Account.Authenticate`; the operations before it call
it at most once each. A successful `Authenticate` on a client without session
stores the session it returns; a failed one stores nothing, so the next
operation that needs the backend authenticates again. -/
theorem session_reused_once_stored (env : Env) (ops1 ops2 : List Op)
    (carina mid fin : MakeSwarm) (w wm wf : World)
    (h1 : runOps env ops1 carina w = some (mid, wm))
    (hstored : mid.client ≠ none)
    (h2 : runOps env ops2 mid wm = some (fin, wf)) :
    runOps env (ops1 ++ ops2) carina w = some (fin, wf) ∧
    fin = mid ∧ wf.auths = wm.auths ∧
    wm.auths ≤ w.auths + ops1.length ∧
    (∀ cl acct, carina.client = none →
      env.Authenticate w.auths carina.Account = (.ok cl, acct) →
      carina.init env w = (none, ⟨some cl, acct⟩, w.call Call.Authenticate)) ∧
    (∀ err acct, carina.client = none →
      env.Authenticate w.auths carina.Account = (.error err, acct) →
      carina.init env w = (some err, ⟨none, acct⟩, w.call Call.Authenticate)) := by
  obtain ⟨h3, h4⟩ := runOps_ready env ops2 mid fin wm wf hstored h2
  refine ⟨?_, h3, h4, runOps_bound env ops1 carina mid w wm h1, ?_, ?_⟩
  · rw [runOps_append, h1]
    exact h2
  · intro cl acct hnil hauth
    unfold MakeSwarm.init
    simp only [hnil, hauth]
  · intro err acct hnil hauth
    unfold MakeSwarm.init
    simp only [hnil, hauth]

/-- Witness of C11 amended: on the backend whose first authentication fails,
`GetQuotas` and `ListClusters` leave a session stored after two calls of
`Authenticate`; the four operations that follow keep the client and add no
call of `Authenticate`. -/
theorem session_reused_once_stored_witness :
    (runOps flakyEnv
        ([Op.GetQuotas, Op.ListClusters] ++
          [Op.GetQuotas, Op.CreateCluster "demo" "" 3, Op.ResizeCluster "demo" 5,
            Op.GetCluster "demo"])
        freshClient World.empty).map (fun s => (s.1, s.2.trace)) =
      some (⟨some ⟨"alice", "", "https://swarm.example"⟩, freshClient.Account⟩,
        [Call.Authenticate, Call.Authenticate, Call.List, Call.GetQuotas,
          Call.Create ⟨"demo", "", 3, false⟩, Call.Get "demo"]) :=
  have h := session_reused_once_stored flakyEnv [Op.GetQuotas, Op.ListClusters]
    [Op.GetQuotas, Op.CreateCluster "demo" "" 3, Op.ResizeCluster "demo" 5, Op.GetCluster "demo"]
    freshClient ⟨some ⟨"alice", "", "https://swarm.example"⟩, freshClient.Account⟩
    ⟨some ⟨"alice", "", "https://swarm.example"⟩, freshClient.Account⟩
    World.empty
    ⟨[Call.Authenticate, Call.Authenticate, Call.List],
      [LogEntry.Debug "[make-swarm] Listing clusters" []]⟩
    ⟨[Call.Authenticate, Call.Authenticate, Call.List, Call.GetQuotas,
        Call.Create ⟨"demo", "", 3, false⟩, Call.Get "demo"],
      [LogEntry.Debug "[make-swarm] Listing clusters" [],
        LogEntry.Debug "[make-swarm] Retrieving account quotas" [],
        LogEntry.Debug "[make-swarm] Creating %d-node cluster (%s)" ["3", "demo"],
        LogEntry.Debug "[make-swarm] Retrieving cluster (%s)" ["demo"]]⟩
    (by decide) (by decide) (by decide)
  by rw [h.1]; rfl

/-! ### C12: backend errors are wrapped, never dropped -/

theorem wrapsBackendError_of_match {α β : Type} (answer : Except Error β) (context : String)
    (ret : Ret α) (f : β → Option α)
    (h : ret = match answer with
      | .error err => (none, some (Error.wrap err ("[make-swarm] " ++ context)))
      | .ok result => (f result, none)) :
    WrapsBackendError answer ret context := by
  subst h
  cases answer with
  | error err =>
    refine ⟨fun e he => ?_, fun hnil => ?_⟩
    · cases he
      exact ⟨rfl, _, rfl, rfl⟩
    · simp at hnil
  | ok result =>
    refine ⟨fun e he => ?_, fun _ => ⟨result, rfl⟩⟩
    cases he

/-- C12: let `init` succeed, leaving the session `cl` and the world `w1`. For
each of the nine operations that call the backend, with the answer the
backend gives to its call: when the answer is an error `e`, the operation
returns a nil result and an error whose message is `[make-swarm] `, the words
naming the operation, `: `, and the message of `e`; and the operation returns
a nil error only when the answer is not an error. -/
theorem backend_errors_are_wrapped (env : Env) (carina carina1 : MakeSwarm) (w w1 : World)
    (cl : ClusterClient) (name template : String) (nodes : Int) (value : Bool)
    (hinit : carina.init env w = (none, carina1, w1)) (hcl : carina1.client = some cl) :
    WrapsBackendError (env.GetQuotas cl (w1.seq Call.GetQuotas))
      (carina.GetQuotas env w).1 "Unable to retrieve account quotas" ∧
    WrapsBackendError
      (env.Create cl (w1.seq (Call.Create ⟨name, "", nodes, false⟩)) ⟨name, "", nodes, false⟩)
      (carina.CreateCluster env w name template nodes).1 "Unable to create the cluster" ∧
    WrapsBackendError (env.GetCredentials cl (w1.seq (Call.GetCredentials name)) name)
      (carina.GetClusterCredentials env w name).1 "Unable to retrieve the cluster credentials" ∧
    WrapsBackendError (env.List cl (w1.seq Call.List))
      (carina.ListClusters env w).1 "Unable to list clusters" ∧
    WrapsBackendError (env.Rebuild cl (w1.seq (Call.Rebuild name)) name)
      (carina.RebuildCluster env w name).1 "Unable to rebuild the cluster" ∧
    WrapsBackendError (env.Get cl (w1.seq (Call.Get name)) name)
      (carina.GetCluster env w name).1 ("Unable to retrieve cluster (" ++ name ++ ")") ∧
    WrapsBackendError (env.Delete cl (w1.seq (Call.Delete name)) name)
      (carina.DeleteCluster env w name).1 ("Unable to delete cluster (" ++ name ++ ")") ∧
    WrapsBackendError (env.Grow cl (w1.seq (Call.Grow name nodes)) name nodes)
      (carina.GrowCluster env w name nodes).1 ("Unable to grow cluster (" ++ name ++ ")") ∧
    WrapsBackendError (env.SetAutoScale cl (w1.seq (Call.SetAutoScale name value)) name value)
      (carina.SetAutoScale env w name value).1
      ("Unable to change the cluster's autoscale setting (" ++ name ++ ")") := by
  refine ⟨?_, ?_, ?_, ?_, ?_, ?_, ?_, ?_, ?_⟩
  · apply wrapsBackendError_of_match _ _ _ (fun result => some (⟨result⟩ : CarinaQuotas))
    unfold MakeSwarm.GetQuotas
    rw [hinit]
    simp only [hcl, seq_writeDebug]
    cases env.GetQuotas cl (w1.seq Call.GetQuotas) <;> rfl
  · apply wrapsBackendError_of_match _ _ _ (fun result => some (⟨result⟩ : Cluster))
    rw [CreateCluster_eq env carina carina1 w w1 cl name template nodes hinit hcl]
    cases env.Create cl (w1.seq (Call.Create ⟨name, "", nodes, false⟩))
      ⟨name, "", nodes, false⟩ <;> rfl
  · apply wrapsBackendError_of_match _ _ _
      (fun result : LibCredentials => some (⟨result.Files⟩ : CredentialsBundle))
    unfold MakeSwarm.GetClusterCredentials
    rw [hinit]
    simp only [hcl, seq_writeDebug]
    cases env.GetCredentials cl (w1.seq (Call.GetCredentials name)) name <;> rfl
  · apply wrapsBackendError_of_match _ _ _
      (fun results : List LibCluster =>
        results.foldl (fun clusters r => some (clusters.getD [] ++ [(⟨r⟩ : Cluster)])) none)
    unfold MakeSwarm.ListClusters
    rw [hinit]
    simp only [hcl, seq_writeDebug]
    cases env.List cl (w1.seq Call.List) <;> rfl
  · apply wrapsBackendError_of_match _ _ _ (fun result => some (⟨result⟩ : Cluster))
    unfold MakeSwarm.RebuildCluster
    rw [hinit]
    simp only [hcl, seq_writeDebug]
    cases env.Rebuild cl (w1.seq (Call.Rebuild name)) name <;> rfl
  · apply wrapsBackendError_of_match _ _ _ (fun result => some (⟨result⟩ : Cluster))
    unfold MakeSwarm.GetCluster
    rw [hinit]
    simp only [hcl, seq_writeDebug]
    cases env.Get cl (w1.seq (Call.Get name)) name <;> rfl
  · apply wrapsBackendError_of_match _ _ _ (fun result => some (⟨result⟩ : Cluster))
    unfold MakeSwarm.DeleteCluster
    rw [hinit]
    simp only [hcl, seq_writeDebug]
    cases env.Delete cl (w1.seq (Call.Delete name)) name <;> rfl
  · apply wrapsBackendError_of_match _ _ _ (fun result => some (⟨result⟩ : Cluster))
    unfold MakeSwarm.GrowCluster
    rw [hinit]
    simp only [hcl, seq_writeDebug]
    cases env.Grow cl (w1.seq (Call.Grow name nodes)) name nodes <;> rfl
  · apply wrapsBackendError_of_match _ _ _ (fun result => some (⟨result⟩ : Cluster))
    unfold MakeSwarm.SetAutoScale
    rw [hinit]
    simp only [hcl, seq_writeDebug]
    cases env.SetAutoScale cl (w1.seq (Call.SetAutoScale name value)) name value <;> rfl

/-- Witness of C12: a fresh client against a backend that is down. `GetQuotas`,
`CreateCluster` and `GetCluster` return a nil result and the backend's error
under the tag and the words of the operation. -/
theorem backend_errors_are_wrapped_witness :
    ((freshClient.GetQuotas downEnv World.empty).1.1 = none ∧
      ∃ err, (freshClient.GetQuotas downEnv World.empty).1.2 = some err ∧
        err.Error = "[make-swarm] Unable to retrieve account quotas: 503 Service Unavailable") ∧
    ((freshClient.CreateCluster downEnv World.empty "demo" "swarm" 3).1.1 = none ∧
      ∃ err, (freshClient.CreateCluster downEnv World.empty "demo" "swarm" 3).1.2 = some err ∧
        err.Error = "[make-swarm] Unable to create the cluster: 503 Service Unavailable") ∧
    ((freshClient.GetCluster downEnv World.empty "demo").1.1 = none ∧
      ∃ err, (freshClient.GetCluster downEnv World.empty "demo").1.2 = some err ∧
        err.Error = "[make-swarm] Unable to retrieve cluster (demo): 503 Service Unavailable") :=
  have h := backend_errors_are_wrapped downEnv freshClient
    ⟨some ⟨"alice", "", "https://swarm.example"⟩, freshClient.Account⟩
    World.empty (World.empty.call Call.Authenticate) ⟨"alice", "", "https://swarm.example"⟩
    "demo" "swarm" 3 true rfl rfl
  ⟨h.1.1 (Error.new "503 Service Unavailable") rfl,
    h.2.1.1 (Error.new "503 Service Unavailable") rfl,
    h.2.2.2.2.2.1.1 (Error.new "503 Service Unavailable") rfl⟩

end Carina
